import Mathlib

/-!
Shallow embedding of the aviation multi-agent dashboard's reconciliation core:
the Zustand store `src/frontend/store/aviation-store.ts`, its payload helpers
from `src/frontend/types/aviation.ts`, and the SSE dispatch step of
`src/frontend/hooks/use-sse.ts`.

Modelling conventions, fixed once here:
* JavaScript numbers are modelled as `ℚ`; `NaN` gets its own payload
  constructor `PValue.vnan` so that `payloadNumber`'s `Number.isNaN` guard is
  representable (`ℚ` itself has no NaN).
* Timestamp strings are modelled as decimal digit strings holding epoch
  milliseconds: `Date.parse` (`dateParse`) returns their numeric value and NaN
  (modelled `none`) on anything else; `new Date(now).toISOString()`
  (`isoString`) prints the epoch value, so it parses back to `now`.
* JavaScript objects used as string-keyed records (`agents`, `dataSources`,
  payloads) are association lists; the spread `{...m, [k]: v}` is `alistSet`
  (replace in place, else append), matching JS key-slot semantics.
* `Date.now()` is passed in as an explicit `nowMs` argument; the store's two
  clock reads inside one action are modelled as the same instant.
-/

set_option linter.unusedVariables false
set_option linter.unnecessarySeqFocus false

namespace Aviation

/-- A JSON value carried in an envelope payload (`payload: Record<string, unknown>`). -/
inductive PValue where
  | vstr (s : String)
  | vnum (q : ℚ)
  | vnan
  | vbool (b : Bool)
  | vnull
  | varr (elems : List PValue)
  | vobj (fields : List (String × PValue))

/-- Association-list lookup, first binding wins (JS property read). -/
def alistGet {α : Type} : List (String × α) → String → Option α
  | [], _ => none
  | (k', v) :: rest, k => if k' = k then some v else alistGet rest k

/-- Association-list update: replace the existing slot in place, else append
(JS `{...m, [k]: v}` object-spread semantics). -/
def alistSet {α : Type} : List (String × α) → String → α → List (String × α)
  | [], k, v => [(k, v)]
  | (k', v') :: rest, k, v =>
      if k' = k then (k, v) :: rest else (k', v') :: alistSet rest k v

/-- The store's event payload type. -/
abbrev Payload := List (String × PValue)

/-- `payloadString` with an explicit fallback: the value when it is a string,
else the fallback. -/
def payloadStringD (p : Payload) (k fallback : String) : String :=
  match alistGet p k with
  | some (.vstr s) => s
  | _ => fallback

/-- `payloadString(payload, key)` with the default fallback `""`. -/
def payloadString (p : Payload) (k : String) : String :=
  payloadStringD p k ""

/-- `payloadNumber` with an explicit fallback: the value when it is a
non-NaN number, else the fallback. -/
def payloadNumberD (p : Payload) (k : String) (fallback : ℚ) : ℚ :=
  match alistGet p k with
  | some (.vnum q) => q
  | _ => fallback

/-- `payloadNumber(payload, key)` with the default fallback `0`. -/
def payloadNumber (p : Payload) (k : String) : ℚ :=
  payloadNumberD p k 0

/-- `payloadNumber(payload, key, prev)` where the source passes a
possibly-`undefined` previous value as the fallback. -/
def payloadNumberOpt (p : Payload) (k : String) (prev : Option ℚ) : Option ℚ :=
  match alistGet p k with
  | some (.vnum q) => some q
  | _ => prev

/-- `payloadArray(payload, key)`: the raw element list when the value is an
array, else `[]` (the source casts without validating the elements, so the
model keeps them as raw `PValue`s). -/
def payloadArr (p : Payload) (k : String) : List PValue :=
  match alistGet p k with
  | some (.varr vs) => vs
  | _ => []

/-- JS string `a || b`: `b` when `a` is empty (falsy), else `a`. -/
def jsOr (a b : String) : String :=
  if a = "" then b else a

/-- JS `String.prototype.includes(sub)`. -/
def jsIncludes (s sub : String) : Bool :=
  (s.splitOn sub).length != 1

/-- `Date.parse`: numeric value of a decimal digit string, NaN (`none`)
otherwise (see the modelling conventions above). -/
def dateParse (s : String) : Option ℚ :=
  (s.toNat?).map (fun n => (n : ℚ))

/-- `new Date(nowMs).toISOString()`, printing the epoch-millisecond value. -/
def isoString (nowMs : Nat) : String :=
  toString nowMs

/-- JS `Math.round`: half-up (toward positive infinity). -/
def jsRound (q : ℚ) : ℤ :=
  ⌊q + 1 / 2⌋

/-- JS `Array.from(new Set(l))`: deduplicate keeping first occurrences. -/
def setFrom (l : List String) : List String :=
  l.foldl (fun acc x => if x ∈ acc then acc else acc ++ [x]) []

/-- JS `Array.prototype.slice(-n)`: the last `n` elements. -/
def jsSliceLast {α : Type} (n : Nat) (l : List α) : List α :=
  l.drop (l.length - n)

/-- In-place update of the element at index `i` (JS `arr[i] = {...arr[i], ...}`
on a copied array). -/
def updateAt {α : Type} : List α → Nat → (α → α) → List α
  | [], _, _ => []
  | x :: rest, 0, f => f x :: rest
  | x :: rest, i + 1, f => x :: updateAt rest i f

/-- `RunStatus` from `types/aviation.ts`. -/
inductive RunStatus where
  | pending | running | completed | failed | cancelled
deriving DecidableEq

/-- `AgentStatus` from `types/aviation.ts`. -/
inductive AgentStatus where
  | idle | activated | excluded | thinking | querying | done | error
deriving DecidableEq

/-- `StageStatus` from `types/aviation.ts`. -/
inductive StageStatus where
  | pending | running | succeeded | failed | skipped
deriving DecidableEq

/-- `DataSourceActivity["provider"]`: `"Azure" | "Fabric" | "Unknown"`. -/
inductive Provider where
  | azure | fabric | unknown
deriving DecidableEq

/-- Status of one `AgentToolCall`. -/
inductive ToolStatus where
  | running | done | error
deriving DecidableEq

/-- Status of one `RecoveryTimelineEntry`. -/
inductive TimelineStatus where
  | pending | inProgress | completed
deriving DecidableEq

/-- The agent's `category` field. -/
inductive Category where
  | specialist | coordinator | placeholder
deriving DecidableEq

/-- The store's `bottomDrawerTab`. -/
inductive DrawerTab where
  | activity | timeline | plan | sources
deriving DecidableEq

/-- Envelope `level`. -/
inductive Level where
  | info | warn | error
deriving DecidableEq

/-- `TraceActor` from `types/aviation.ts`. -/
structure TraceActor where
  kind : String
  id : String
  name : Option String := none

/-- `WorkflowEvent` from `types/aviation.ts`: the event envelope. -/
structure WorkflowEvent where
  event_id : String
  run_id : String := ""
  stream_id : Option String := none
  ts : String
  sequence : ℚ := 0
  level : Level := .info
  kind : String
  stage_id : Option String := none
  stage_name : Option String := none
  agent_name : Option String := none
  executor_name : Option String := none
  tool_name : Option String := none
  message : String := ""
  payload : Payload := []
  actor : Option TraceActor := none
  trace_id : Option String := none
  span_id : Option String := none
  parent_span_id : Option String := none
  duration_ms : Option ℚ := none

/-- `RunProgress` from `types/aviation.ts`. -/
structure RunProgress where
  status : RunStatus
  overallPct : ℚ
  agentsTotal : ℚ
  agentsActivated : ℚ
  agentsRunning : ℚ
  agentsDone : ℚ
  agentsErrored : ℚ
  currentStep : String
  lastEventKind : Option String := none
  lastUpdateAt : Option String := none
  lastHeartbeatAt : Option String := none
  eventRatePerMin : ℚ
  isLive : Bool
  isStale : Bool
deriving DecidableEq

/-- `AgentEvidence` from `types/aviation.ts`. -/
structure AgentEvidence where
  id : String
  sourceType : String
  summary : String
  resultCount : ℚ
  timestamp : String
deriving DecidableEq

/-- `AgentToolCall` from `types/aviation.ts`. -/
structure AgentToolCall where
  id : String
  toolName : String
  dataSource : String
  status : ToolStatus
  startedAt : Option String := none
  endedAt : Option String := none
  latencyMs : Option ℚ := none
  resultCount : Option ℚ := none
  error : Option String := none
deriving DecidableEq

/-- `AgentNode` from `types/aviation.ts`: one agent of the registry. -/
structure AgentNode where
  id : String
  name : String
  shortName : Option String := none
  icon : String
  color : String
  status : AgentStatus
  dataSources : List PValue
  included : Bool
  reason : String
  category : Category
  evidence : List AgentEvidence
  toolCalls : List AgentToolCall
  recommendation : Option String := none
  confidence : Option ℚ := none
  activeQuery : Option String := none
  currentObjective : Option String := none
  activeQuerySummary : Option String := none
  lastEvidencePreview : Option String := none
  spanStartedAt : Option String := none
  traceCount : Option ℚ := none
  lastTraceAt : Option String := none
  currentStep : Option String := none
  lastAction : Option String := none
  percentComplete : Option ℚ := none
  startedAt : Option String := none
  endedAt : Option String := none
  durationMs : Option ℚ := none
  completionReason : Option String := none
  executionCount : Option ℚ := none

/-- `AgentEdge` from `types/aviation.ts`. -/
structure AgentEdge where
  id : String
  source : String
  target : String
  reason : String
  animated : Bool
  timestamp : String
deriving DecidableEq

/-- `DataSourceActivity` from `types/aviation.ts`. -/
structure DataSourceActivity where
  id : String
  name : String
  type : String
  provider : Provider
  platformLabel : String
  queryCount : ℚ
  totalResults : ℚ
  avgLatencyMs : ℚ
  isActive : Bool
  lastQueryTime : Option String := none
  lastQuerySummary : Option String := none
  lastAgentId : Option String := none
  sparkline : List ℚ
deriving DecidableEq

/-- `RecoveryOption["scores"]` from `types/aviation.ts`. -/
structure RecoveryScores where
  delay_reduction : ℚ
  crew_margin : ℚ
  safety_score : ℚ
  cost_impact : ℚ
  passenger_impact : ℚ
deriving DecidableEq

/-- `RecoveryTimelineEntry` from `types/aviation.ts`. -/
structure RecoveryTimelineEntry where
  time : String
  action : String
  agent : String
  details : Option String := none
  status : TimelineStatus
deriving DecidableEq

/-- `RecoveryPlan` from `types/aviation.ts`. Its `options` and `criteria` are
stored by the reducer without element validation, so the model keeps them as
raw payload values. -/
structure RecoveryPlan where
  selectedOptionId : String
  summary : String
  timeline : List RecoveryTimelineEntry
  options : List PValue
  criteria : List PValue

/-- `AgentInfo` from `types/aviation.ts`: one roster entry of the solve
response. -/
structure AgentInfo where
  id : String
  name : String
  icon : String
  color : String
  dataSources : List String
  included : Bool
  reason : String

/-- `Stage` from `types/aviation.ts`. -/
structure Stage where
  stage_id : String
  stage_name : String := ""
  stage_order : ℚ := 0
  status : StageStatus
  started_at : Option String := none
  completed_at : Option String := none
  duration_ms : Option ℚ := none
  progress_pct : ℚ := 0
  artifacts : List String := []
  error_message : Option String := none

/-- `RunMetadata` from `types/aviation.ts`. -/
structure RunMetadata where
  run_id : String
  status : RunStatus
  problem_description : String := ""
  created_at : String := ""
  started_at : Option String := none
  completed_at : Option String := none
  duration_ms : Option ℚ := none
  current_stage : Option String := none
  stages_completed : ℚ
  total_stages : ℚ
  progress_pct : ℚ
  stages : List Stage
  error_message : Option String := none
  error_stage : Option String := none
  event_count : ℚ

-- The `EventKinds` constant table of `types/aviation.ts`.
namespace EventKinds

def RUN_STARTED : String := "run_started"
def RUN_COMPLETED : String := "run_completed"
def RUN_FAILED : String := "run_failed"
def STAGE_STARTED : String := "stage_started"
def STAGE_COMPLETED : String := "stage_completed"
def STAGE_FAILED : String := "stage_failed"
def SPAN_STARTED : String := "span.started"
def SPAN_ENDED : String := "span.ended"
def AGENT_ACTIVATED : String := "agent.activated"
def AGENT_EXCLUDED : String := "agent.excluded"
def AGENT_EVIDENCE : String := "agent.evidence"
def AGENT_RECOMMENDATION : String := "agent.recommendation"
def AGENT_STREAMING : String := "agent.streaming"
def AGENT_OBJECTIVE : String := "agent.objective"
def AGENT_PROGRESS : String := "agent.progress"
def DATA_SOURCE_QUERY_START : String := "data_source.query_start"
def DATA_SOURCE_QUERY_COMPLETE : String := "data_source.query_complete"
def EXECUTOR_INVOKED : String := "executor.invoked"
def EXECUTOR_COMPLETED : String := "executor.completed"
def AGENT_COMPLETED : String := "agent.completed"
def AGENT_COMPLETED_LEGACY : String := "agent_completed"
def TOOL_CALLED : String := "tool.called"
def TOOL_COMPLETED : String := "tool.completed"
def TOOL_FAILED : String := "tool.failed"
def TOOL_CALLED_LEGACY : String := "tool_called"
def TOOL_COMPLETED_LEGACY : String := "tool_completed"
def TOOL_FAILED_LEGACY : String := "tool_failed"
def COORDINATOR_SCORING : String := "coordinator.scoring"
def COORDINATOR_PLAN : String := "coordinator.plan"
def RECOVERY_OPTION : String := "recovery.option"
def HANDOVER : String := "handover"
def ORCHESTRATOR_PLAN : String := "orchestrator.plan"
def ORCHESTRATOR_DECISION : String := "orchestrator.decision"
def HEARTBEAT : String := "heartbeat"
def PROGRESS_UPDATE : String := "progress_update"
def WORKFLOW_STATUS : String := "workflow.status"

end EventKinds

/-- `parseTimelineEntry` from `types/aviation.ts`: accepts only an object with
string `time` and `action` (a JS array would also pass the `typeof` guard but
then fail the string checks, which the `vobj`-only match reproduces). -/
def parseTimelineEntry : PValue → Option RecoveryTimelineEntry
  | .vobj fields =>
      match alistGet fields "time", alistGet fields "action" with
      | some (.vstr time), some (.vstr action) =>
          some
            { time := time
              action := action
              agent :=
                match alistGet fields "agent" with
                | some (.vstr a) => a
                | _ => ""
              details :=
                match alistGet fields "details" with
                | some (.vstr d) => some d
                | _ => none
              status :=
                match alistGet fields "status" with
                | some (.vstr "pending") => .pending
                | some (.vstr "in_progress") => .inProgress
                | some (.vstr "completed") => .completed
                | _ => .pending }
      | _, _ => none
  | _ => none

/-- `parseRecoveryScores` from `types/aviation.ts`. A NaN payload number
passes the source's `typeof === "number"` check; `ℚ` has no NaN, so `vnan`
degrades to `0` here (no claim observes the difference). -/
def parseRecoveryScores (raw : Option PValue) : RecoveryScores :=
  match raw with
  | some (.vobj fields) =>
      let read : String → ℚ := fun k =>
        match alistGet fields k with
        | some (.vnum q) => q
        | _ => 0
      { delay_reduction := read "delay_reduction"
        crew_margin := read "crew_margin"
        safety_score := read "safety_score"
        cost_impact := read "cost_impact"
        passenger_impact := read "passenger_impact" }
  | _ =>
      { delay_reduction := 0, crew_margin := 0, safety_score := 0
        cost_impact := 0, passenger_impact := 0 }

/-- One entry of the `DATA_SOURCE_DEFAULTS` registry in `aviation-store.ts`. -/
def mkDefaultSource (key nm ty : String) (provider : Provider)
    (platformLabel : String) : DataSourceActivity :=
  { id := key, name := nm, type := ty, provider := provider
    platformLabel := platformLabel, queryCount := 0, totalResults := 0
    avgLatencyMs := 0, isActive := false, sparkline := [] }

/-- `createDefaultDataSources` from `aviation-store.ts`: the eight pre-seeded
sources of `DATA_SOURCE_DEFAULTS`, in registry order. -/
def createDefaultDataSources : List (String × DataSourceActivity) :=
  [ ("SQL", mkDefaultSource "SQL" "Azure PostgreSQL" "SQL" .azure "Azure Data")
  , ("KQL", mkDefaultSource "KQL" "Fabric Eventhouse" "KQL" .fabric "Microsoft Fabric")
  , ("GRAPH", mkDefaultSource "GRAPH" "Fabric Graph" "GRAPH" .fabric "Microsoft Fabric")
  , ("VECTOR_OPS", mkDefaultSource "VECTOR_OPS" "Azure AI Search (Ops)" "VECTOR_OPS" .azure "Azure AI")
  , ("VECTOR_REG", mkDefaultSource "VECTOR_REG" "Azure AI Search (Regs)" "VECTOR_REG" .azure "Azure AI")
  , ("VECTOR_AIRPORT", mkDefaultSource "VECTOR_AIRPORT" "Azure AI Search (Airport)" "VECTOR_AIRPORT" .azure "Azure AI")
  , ("NOSQL", mkDefaultSource "NOSQL" "Azure Cosmos DB" "NOSQL" .azure "Azure Data")
  , ("FABRIC_SQL", mkDefaultSource "FABRIC_SQL" "Fabric SQL Endpoint" "FABRIC_SQL" .fabric "Microsoft Fabric") ]

/-- `incrementAgentTrace` from `aviation-store.ts`. -/
def incrementAgentTrace (agent : AgentNode) (ts : String) : AgentNode :=
  { agent with
    traceCount := some (agent.traceCount.getD 0 + 1)
    lastTraceAt := some ts }

/-- `createDefaultRunProgress` from `aviation-store.ts`. -/
def createDefaultRunProgress : RunProgress :=
  { status := .pending
    overallPct := 0
    agentsTotal := 0
    agentsActivated := 0
    agentsRunning := 0
    agentsDone := 0
    agentsErrored := 0
    currentStep := "idle"
    eventRatePerMin := 0
    isLive := false
    isStale := false }

/-- `isMeaningfulEvent` from `aviation-store.ts`. -/
def isMeaningfulEvent (kind : String) : Bool :=
  kind != EventKinds.HEARTBEAT

/-- `MAX_STORED_EVENTS` from `aviation-store.ts`. -/
def MAX_STORED_EVENTS : Nat := 1500

/-- The business state of the `AviationStore` (everything `create(...)`
initializes except the action closures). -/
structure AviationState where
  currentRunId : Option String
  currentRun : Option RunMetadata
  events : List WorkflowEvent
  isConnected : Bool
  lastEventId : Option String
  runProgress : RunProgress
  activeAgentIds : List String
  completedAgentIds : List String
  failedAgentIds : List String
  lastMeaningfulEventAt : Option String
  lastHeartbeatAt : Option String
  eventRatePerMin : ℚ
  noUpdateWarning : Bool
  scenario : Option String
  agents : List (String × AgentNode)
  agentEdges : List AgentEdge
  selectedAgentId : Option String
  dataSources : List (String × DataSourceActivity)
  recoveryPlan : Option RecoveryPlan
  recoveryOptions : List PValue
  sidebarCollapsed : Bool
  bottomDrawerTab : DrawerTab
  bottomDrawerOpen : Bool

/-- The store's initial state from the `create<AviationStore>` literal. -/
def initialState : AviationState :=
  { currentRunId := none
    currentRun := none
    events := []
    isConnected := false
    lastEventId := none
    runProgress := createDefaultRunProgress
    activeAgentIds := []
    completedAgentIds := []
    failedAgentIds := []
    lastMeaningfulEventAt := none
    lastHeartbeatAt := none
    eventRatePerMin := 0
    noUpdateWarning := false
    scenario := none
    agents := []
    agentEdges := []
    selectedAgentId := none
    dataSources := createDefaultDataSources
    recoveryPlan := none
    recoveryOptions := []
    sidebarCollapsed := false
    bottomDrawerTab := .timeline
    bottomDrawerOpen := true }

/-- The `setCurrentRunId` action. -/
def setCurrentRunId (runId : Option String) (s : AviationState) : AviationState :=
  { s with
    currentRunId := runId
    runProgress :=
      match runId with
      | some _ =>
          { s.runProgress with status := .running, isLive := true, currentStep := "run_started" }
      | none => createDefaultRunProgress }

/-- The `setCurrentRun` action. -/
def setCurrentRun (run : Option RunMetadata) (s : AviationState) : AviationState :=
  { s with currentRun := run }

/-- The `clearEvents` action. -/
def clearEvents (s : AviationState) : AviationState :=
  { s with
    events := []
    currentRunId := none
    currentRun := none
    lastEventId := none
    runProgress := createDefaultRunProgress
    activeAgentIds := []
    completedAgentIds := []
    failedAgentIds := []
    lastMeaningfulEventAt := none
    lastHeartbeatAt := none
    eventRatePerMin := 0
    noUpdateWarning := false
    scenario := none
    agents := []
    agentEdges := []
    selectedAgentId := none
    dataSources := createDefaultDataSources
    recoveryPlan := none
    recoveryOptions := [] }

/-- The `setConnected` action. -/
def setConnected (connected : Bool) (s : AviationState) : AviationState :=
  { s with
    isConnected := connected
    noUpdateWarning := if connected then s.noUpdateWarning else false
    runProgress :=
      { s.runProgress with
        isLive := connected
        isStale := if connected then s.runProgress.isStale else false } }

/-- The `noteHeartbeat` action; `ts` is the optional argument, `nowMs` stands
for the `new Date().toISOString()` fallback. -/
def noteHeartbeat (nowMs : Nat) (ts : Option String) (s : AviationState) : AviationState :=
  let heartbeatTs := jsOr (ts.getD "") (isoString nowMs)
  { s with
    lastHeartbeatAt := some heartbeatTs
    runProgress := { s.runProgress with lastHeartbeatAt := some heartbeatTs } }

/-- The `evaluateStaleness` action; `nowMs` is the poll instant (`nowMs ??
Date.now()`). A missing `lastMeaningfulEventAt` yields `0`, an unparseable one
NaN: both fail the source's `lastMeaningfulMs > 0` guard. -/
def evaluateStaleness (nowMs : Nat) (s : AviationState) : AviationState :=
  let stale :=
    s.isConnected &&
      match s.lastMeaningfulEventAt with
      | none => false
      | some t =>
          match dateParse t with
          | none => false
          | some m => decide (0 < m) && decide ((nowMs : ℚ) - m > 20000)
  { s with
    noUpdateWarning := stale
    runProgress := { s.runProgress with isStale := stale } }

/-- The `initializeAgents` action: seeds the registry from the roster. -/
def initializeAgents (agentInfos : List AgentInfo) (scenarioName : String)
    (s : AviationState) : AviationState :=
  let includedCount := (agentInfos.filter (·.included)).length
  let agents :=
    agentInfos.foldl
      (fun acc info =>
        alistSet acc info.id
          { id := info.id
            name := info.name
            icon := info.icon
            color := info.color
            status := if info.included then .idle else .excluded
            dataSources := info.dataSources.map .vstr
            included := info.included
            reason := info.reason
            category := if jsIncludes info.id "coordinator" then .coordinator else .specialist
            evidence := []
            toolCalls := []
            traceCount := some 0
            percentComplete := some 0
            executionCount := some 0 })
      []
  { s with
    agents := agents
    scenario := some scenarioName
    agentEdges := []
    activeAgentIds := []
    completedAgentIds := []
    failedAgentIds := []
    runProgress :=
      { s.runProgress with
        status := .running
        agentsTotal := (includedCount : ℚ)
        agentsActivated := 0
        agentsRunning := 0
        agentsDone := 0
        agentsErrored := 0
        overallPct := 0
        currentStep := "agents_initialized" } }

/-- Mutate the first stage with the given id, as the source's
`run.stages.find(...)` followed by in-place mutation does. -/
def updateFirstStage : List Stage → String → (Stage → Stage) → List Stage
  | [], _, _ => []
  | st :: rest, sid, f =>
      if st.stage_id = sid then f st :: rest else st :: updateFirstStage rest sid f

/-- The switch body of `updateRunFromEvent` applied to a copy of the current
run; `eventCount` is `state.events.length + 1` read after the event was
admitted. The source's `(stages_completed / total_stages) * 100` is `ℚ`
division here (division by a zero `total_stages` yields `0` in `ℚ` where JS
yields a non-finite number; no claim observes `currentRun`). -/
def applyRunEvent (e : WorkflowEvent) (eventCount : ℚ) (run : RunMetadata) : RunMetadata :=
  let run1 : RunMetadata :=
    if e.kind = EventKinds.STAGE_STARTED then
      match e.stage_id with
      | some sid =>
          { run with
            current_stage := some sid
            stages := updateFirstStage run.stages sid
              (fun st => { st with status := .running, started_at := some e.ts }) }
      | none => run
    else if e.kind = EventKinds.STAGE_COMPLETED then
      match e.stage_id with
      | some sid =>
          let stages := updateFirstStage run.stages sid
            (fun st =>
              { st with
                status := .succeeded
                completed_at := some e.ts
                duration_ms := e.duration_ms })
          let completed :=
            (stages.filter (fun st =>
              st.status == StageStatus.succeeded || st.status == StageStatus.skipped)).length
          { run with
            stages := stages
            stages_completed := (completed : ℚ)
            progress_pct := ((completed : ℚ) / run.total_stages) * 100 }
      | none => run
    else if e.kind = EventKinds.STAGE_FAILED then
      match e.stage_id with
      | some sid =>
          { run with
            stages := updateFirstStage run.stages sid
              (fun st => { st with status := .failed, error_message := some e.message }) }
      | none => run
    else if e.kind = EventKinds.RUN_COMPLETED then
      { run with status := .completed, completed_at := some e.ts }
    else if e.kind = EventKinds.RUN_FAILED then
      { run with status := .failed, error_message := some e.message }
    else run
  { run1 with event_count := eventCount }

/-- The `updateRunFromEvent` action: a no-op without a current run, else it
replaces `currentRun` by the updated copy. -/
def updateRunFromEvent (e : WorkflowEvent) (s : AviationState) : AviationState :=
  match s.currentRun with
  | none => s
  | some run => { s with currentRun := some (applyRunEvent e ((s.events.length : ℚ) + 1) run) }

/-- The `set((state) => ...)` half of the `addEvent` action: append to the
bounded buffer, recompute the event rate, merge the generic progress fields.
`nowMs` stands for both `Date.now()` and the `new Date().toISOString()`
fallback taken when `event.ts` is falsy. -/
def addEventCore (nowMs : Nat) (e : WorkflowEvent) (s : AviationState) : AviationState :=
  let effectiveTs := if e.ts = "" then isoString nowMs else e.ts
  let recentEvents := jsSliceLast MAX_STORED_EVENTS (s.events ++ [e])
  let cutoffMs : ℚ := (nowMs : ℚ) - 60000
  let eventRatePerMin : ℚ :=
    ((recentEvents.filter (fun ev =>
        match dateParse ev.ts with
        | some t => decide (t ≥ cutoffMs) && (ev.kind != EventKinds.HEARTBEAT)
        | none => false)).length : ℚ)
  let payload := e.payload
  let runPct := payloadNumberD payload "runProgressPct" s.runProgress.overallPct
  let nextProgress : RunProgress :=
    { s.runProgress with
      overallPct := max s.runProgress.overallPct runPct
      status :=
        if e.kind = EventKinds.RUN_COMPLETED then .completed
        else if e.kind = EventKinds.RUN_FAILED then .failed
        else if e.kind = EventKinds.RUN_STARTED then .running
        else s.runProgress.status
      currentStep := payloadStringD payload "currentStep" s.runProgress.currentStep
      lastEventKind := some e.kind
      lastUpdateAt := some effectiveTs
      eventRatePerMin := eventRatePerMin
      isLive := s.isConnected }
  { s with
    events := recentEvents
    lastEventId := some (jsOr (e.stream_id.getD "") e.event_id)
    lastMeaningfulEventAt :=
      if isMeaningfulEvent e.kind then some effectiveTs else s.lastMeaningfulEventAt
    eventRatePerMin := eventRatePerMin
    runProgress := nextProgress }

/-- The agent id resolved at the top of `processAgentEvent`:
`payload.agentId || payload.executor_id || event.agent_name || ""`. -/
def resolvedAgentId (e : WorkflowEvent) : String :=
  jsOr (payloadString e.payload "agentId")
    (jsOr (payloadString e.payload "executor_id") (e.agent_name.getD ""))

/-- The agent name resolved at the top of `processAgentEvent`. -/
def resolvedAgentName (e : WorkflowEvent) : String :=
  jsOr (payloadString e.payload "agentName")
    (jsOr (payloadString e.payload "agent_name")
      (jsOr (e.agent_name.getD "") (resolvedAgentId e)))

/-- The per-branch `overallPct` update of `processAgentEvent`:
`reportedRunPct >= 0 ? reportedRunPct : current`. -/
def mergedPct (reported current : ℚ) : ℚ :=
  if reported ≥ 0 then reported else current

/-- `payload.success !== false` of the `SPAN_ENDED` branch. -/
def jsSuccess (p : Payload) : Bool :=
  match alistGet p "success" with
  | some (.vbool false) => false
  | _ => true

/-- The provider update: keep a `"Fabric"`/`"Azure"` payload value, else the
previous provider. -/
def providerFrom (sourceProvider : String) (prev : Provider) : Provider :=
  if sourceProvider = "Fabric" then .fabric
  else if sourceProvider = "Azure" then .azure
  else prev

/-- The source's backwards `for` loop of the tool-completion branch: index of
the last still-running call with the given tool name. -/
def findLastRunningIdx (calls : List AgentToolCall) (nm : String) : Option Nat :=
  match calls with
  | [] => none
  | c :: rest =>
      match findLastRunningIdx rest nm with
      | some i => some (i + 1)
      | none => if c.toolName = nm ∧ c.status = .running then some 0 else none

/-- Index of the tool call matched by a completion/failure event: by explicit
`toolId` when the payload supplies one, else the last running same-name call
(`findIndex` returning `-1` is modelled as `none`). -/
def toolTargetIndex (calls : List AgentToolCall) (toolId toolName : String) : Option Nat :=
  if toolId ≠ "" then calls.findIdx? (fun tc => tc.id = toolId)
  else findLastRunningIdx calls toolName

/-- The `AGENT_ACTIVATED` case of `processAgentEvent`. -/
def onAgentActivated (nowMs : Nat) (e : WorkflowEvent) (s : AviationState) : AviationState :=
  let payload := e.payload
  let agentId := resolvedAgentId e
  let agentName := resolvedAgentName e
  let reportedRunPct := payloadNumberD payload "runProgressPct" (-1)
  let reportedCurrentStep := payloadString payload "currentStep"
  if agentId = "" then s
  else
    let baseAgent : AgentNode :=
      match alistGet s.agents agentId with
      | some a => a
      | none =>
          { id := agentId
            name := jsOr agentName agentId
            icon := payloadString payload "icon"
            color := payloadStringD payload "color" "#6366f1"
            dataSources := payloadArr payload "dataSources"
            included := true
            reason := payloadString payload "reason"
            category := .specialist
            evidence := []
            toolCalls := []
            status := .idle
            traceCount := some 0
            percentComplete := some 0
            executionCount := some 0 }
    let prevStarted : String :=
      match alistGet s.agents agentId with
      | some a => a.startedAt.getD ""
      | none => ""
    let updated : AgentNode :=
      { incrementAgentTrace baseAgent e.ts with
        status := .activated
        startedAt := some (jsOr prevStarted e.ts)
        lastAction := some "activated" }
    let newActive := setFrom (s.activeAgentIds ++ [agentId])
    { s with
      agents := alistSet s.agents agentId updated
      activeAgentIds := newActive
      runProgress :=
        { s.runProgress with
          agentsActivated :=
            max s.runProgress.agentsActivated ((s.activeAgentIds.length : ℚ) + 1)
          agentsRunning := (newActive.length : ℚ)
          currentStep := jsOr reportedCurrentStep ("activated:" ++ agentId)
          overallPct := mergedPct reportedRunPct s.runProgress.overallPct
          lastEventKind := some e.kind
          lastUpdateAt := some e.ts } }

/-- The `AGENT_EXCLUDED` case of `processAgentEvent`. -/
def onAgentExcluded (nowMs : Nat) (e : WorkflowEvent) (s : AviationState) : AviationState :=
  let payload := e.payload
  let agentId := resolvedAgentId e
  let reportedRunPct := payloadNumberD payload "runProgressPct" (-1)
  let reportedCurrentStep := payloadString payload "currentStep"
  if agentId = "" then s
  else
    match alistGet s.agents agentId with
    | none => s
    | some a =>
        let remaining := s.activeAgentIds.filter (· != agentId)
        { s with
          agents := alistSet s.agents agentId
            { incrementAgentTrace a e.ts with
              status := .excluded
              lastAction := some "excluded" }
          activeAgentIds := remaining
          runProgress :=
            { s.runProgress with
              agentsRunning := (remaining.length : ℚ)
              currentStep := jsOr reportedCurrentStep ("excluded:" ++ agentId)
              overallPct := mergedPct reportedRunPct s.runProgress.overallPct
              lastEventKind := some e.kind
              lastUpdateAt := some e.ts } }

/-- The `SPAN_STARTED` case of `processAgentEvent`. -/
def onSpanStarted (nowMs : Nat) (e : WorkflowEvent) (s : AviationState) : AviationState :=
  let payload := e.payload
  let agentId := resolvedAgentId e
  let reportedRunPct := payloadNumberD payload "runProgressPct" (-1)
  let reportedCurrentStep := payloadString payload "currentStep"
  if agentId = "" then s
  else
    match alistGet s.agents agentId with
    | none => s
    | some a =>
        let objective :=
          jsOr (payloadString payload "objective")
            (jsOr (payloadString payload "spanName") e.message)
        let newActive := setFrom (s.activeAgentIds ++ [agentId])
        { s with
          agents := alistSet s.agents agentId
            { incrementAgentTrace a e.ts with
              status := .thinking
              currentObjective := some objective
              spanStartedAt := some e.ts
              startedAt := some (jsOr (a.startedAt.getD "") e.ts)
              currentStep := some (payloadStringD payload "currentStep" "analyzing")
              lastAction := some "thinking"
              percentComplete :=
                some (max (a.percentComplete.getD 0) (payloadNumberD payload "percentComplete" 10)) }
          activeAgentIds := newActive
          runProgress :=
            { s.runProgress with
              agentsRunning := (newActive.length : ℚ)
              currentStep := jsOr reportedCurrentStep ("thinking:" ++ agentId)
              overallPct := mergedPct reportedRunPct s.runProgress.overallPct
              lastEventKind := some e.kind
              lastUpdateAt := some e.ts } }

/-- The `AGENT_OBJECTIVE` case of `processAgentEvent`. -/
def onAgentObjective (nowMs : Nat) (e : WorkflowEvent) (s : AviationState) : AviationState :=
  let payload := e.payload
  let agentId := resolvedAgentId e
  let reportedRunPct := payloadNumberD payload "runProgressPct" (-1)
  let reportedCurrentStep := payloadString payload "currentStep"
  if agentId = "" then s
  else
    match alistGet s.agents agentId with
    | none => s
    | some a =>
        let objective := payloadStringD payload "objective" e.message
        let currentStep := payloadStringD payload "currentStep" "objective_set"
        { s with
          agents := alistSet s.agents agentId
            { incrementAgentTrace a e.ts with
              currentObjective := some objective
              currentStep := some currentStep
              lastAction := some "objective_updated"
              percentComplete :=
                some (max (a.percentComplete.getD 0) (payloadNumberD payload "percentComplete" 5)) }
          runProgress :=
            { s.runProgress with
              currentStep := jsOr reportedCurrentStep currentStep
              overallPct := mergedPct reportedRunPct s.runProgress.overallPct
              lastEventKind := some e.kind
              lastUpdateAt := some e.ts } }

/-- The `AGENT_PROGRESS / AGENT_STREAMING` case of `processAgentEvent`. -/
def onAgentProgress (nowMs : Nat) (e : WorkflowEvent) (s : AviationState) : AviationState :=
  let payload := e.payload
  let agentId := resolvedAgentId e
  let reportedRunPct := payloadNumberD payload "runProgressPct" (-1)
  let reportedCurrentStep := payloadString payload "currentStep"
  if agentId = "" then s
  else
    match alistGet s.agents agentId with
    | none => s
    | some a =>
        let percentComplete :=
          payloadNumberD payload "percentComplete" (min (a.percentComplete.getD 0 + 6) 92)
        let currentStep := payloadStringD payload "currentStep" "streaming"
        let newActive := setFrom (s.activeAgentIds ++ [agentId])
        { s with
          agents := alistSet s.agents agentId
            { incrementAgentTrace a e.ts with
              status := .thinking
              currentStep := some currentStep
              lastAction := some "streaming"
              percentComplete := some percentComplete }
          activeAgentIds := newActive
          runProgress :=
            { s.runProgress with
              agentsRunning := (newActive.length : ℚ)
              currentStep := jsOr reportedCurrentStep currentStep
              overallPct := mergedPct reportedRunPct s.runProgress.overallPct
              lastEventKind := some e.kind
              lastUpdateAt := some e.ts } }

/-- The `EXECUTOR_INVOKED` case of `processAgentEvent`. -/
def onExecutorInvoked (nowMs : Nat) (e : WorkflowEvent) (s : AviationState) : AviationState :=
  let payload := e.payload
  let agentId := resolvedAgentId e
  let reportedRunPct := payloadNumberD payload "runProgressPct" (-1)
  let reportedCurrentStep := payloadString payload "currentStep"
  if agentId = "" then s
  else
    match alistGet s.agents agentId with
    | none => s
    | some a =>
        let currentStep := payloadStringD payload "currentStep" "executor_invoked"
        let executionCount :=
          payloadNumberD payload "executionCount" (a.executionCount.getD 0 + 1)
        let newActive := setFrom (s.activeAgentIds ++ [agentId])
        { s with
          agents := alistSet s.agents agentId
            { incrementAgentTrace a e.ts with
              status := .thinking
              currentStep := some currentStep
              lastAction := some "executor_invoked"
              startedAt := some (jsOr (a.startedAt.getD "") e.ts)
              executionCount := some executionCount }
          activeAgentIds := newActive
          runProgress :=
            { s.runProgress with
              agentsRunning := (newActive.length : ℚ)
              currentStep := jsOr reportedCurrentStep currentStep
              overallPct := mergedPct reportedRunPct s.runProgress.overallPct
              lastEventKind := some e.kind
              lastUpdateAt := some e.ts } }

/-- The `EXECUTOR_COMPLETED` case of `processAgentEvent`. -/
def onExecutorCompleted (nowMs : Nat) (e : WorkflowEvent) (s : AviationState) : AviationState :=
  let payload := e.payload
  let agentId := resolvedAgentId e
  let reportedRunPct := payloadNumberD payload "runProgressPct" (-1)
  let reportedCurrentStep := payloadString payload "currentStep"
  if agentId = "" then s
  else
    match alistGet s.agents agentId with
    | none => s
    | some a =>
        let status := payloadStringD payload "status" "completed"
        let isFailure := status = "failed"
        let executionCount :=
          payloadNumberD payload "executionCount" (a.executionCount.getD 1)
        let remaining := s.activeAgentIds.filter (· != agentId)
        { s with
          agents := alistSet s.agents agentId
            { incrementAgentTrace a e.ts with
              status := if isFailure then .error else .done
              endedAt := some e.ts
              lastAction := some "executor_completed"
              percentComplete := some (max (a.percentComplete.getD 0) 95)
              executionCount := some executionCount }
          activeAgentIds := remaining
          runProgress :=
            { s.runProgress with
              agentsRunning := (remaining.length : ℚ)
              currentStep := jsOr reportedCurrentStep ("executor_completed:" ++ agentId)
              overallPct := mergedPct reportedRunPct s.runProgress.overallPct
              lastEventKind := some e.kind
              lastUpdateAt := some e.ts } }

/-- The `DATA_SOURCE_QUERY_START` case of `processAgentEvent`. -/
def onQueryStart (nowMs : Nat) (e : WorkflowEvent) (s : AviationState) : AviationState :=
  let payload := e.payload
  let agentId := resolvedAgentId e
  let reportedRunPct := payloadNumberD payload "runProgressPct" (-1)
  let reportedCurrentStep := payloadString payload "currentStep"
  let sourceType := payloadString payload "sourceType"
  let querySummary :=
    jsOr (payloadString payload "querySummary")
      (jsOr (payloadString payload "query") ("Querying " ++ sourceType ++ "..."))
  let sourceProvider := payloadString payload "sourceProvider"
  if agentId = "" then s
  else
    match alistGet s.agents agentId with
    | none => s
    | some a =>
        let dataSources :=
          if sourceType = "" then s.dataSources
          else
            match alistGet s.dataSources sourceType with
            | none => s.dataSources
            | some ds =>
                alistSet s.dataSources sourceType
                  { ds with
                    isActive := true
                    lastAgentId := some agentId
                    lastQuerySummary := some querySummary
                    provider := providerFrom sourceProvider ds.provider }
        { s with
          agents := alistSet s.agents agentId
            { incrementAgentTrace a e.ts with
              status := .querying
              activeQuery := some sourceType
              activeQuerySummary := some querySummary
              currentStep := some (payloadStringD payload "currentStep" ("query:" ++ sourceType))
              lastAction := some "query_started"
              percentComplete :=
                some (max (a.percentComplete.getD 0) (payloadNumberD payload "percentComplete" 20)) }
          dataSources := dataSources
          runProgress :=
            { s.runProgress with
              currentStep := jsOr reportedCurrentStep ("query:" ++ sourceType)
              overallPct := mergedPct reportedRunPct s.runProgress.overallPct
              lastEventKind := some e.kind
              lastUpdateAt := some e.ts } }

/-- The `DATA_SOURCE_QUERY_COMPLETE` case of `processAgentEvent`. -/
def onQueryComplete (nowMs : Nat) (e : WorkflowEvent) (s : AviationState) : AviationState :=
  let payload := e.payload
  let agentId := resolvedAgentId e
  let reportedRunPct := payloadNumberD payload "runProgressPct" (-1)
  let reportedCurrentStep := payloadString payload "currentStep"
  let sourceType := payloadString payload "sourceType"
  let resultCount := payloadNumber payload "resultCount"
  let latencyMs := payloadNumber payload "latencyMs"
  let sourceProvider := payloadString payload "sourceProvider"
  let querySummary := payloadStringD payload "querySummary" (sourceType ++ " query")
  let dataSources :=
    match alistGet s.dataSources sourceType with
    | none => s.dataSources
    | some ds =>
        alistSet s.dataSources sourceType
          { ds with
            queryCount := ds.queryCount + 1
            totalResults := ds.totalResults + resultCount
            avgLatencyMs :=
              ((jsRound ((ds.avgLatencyMs * ds.queryCount + latencyMs) / (ds.queryCount + 1))) : ℚ)
            isActive := false
            lastQueryTime := some e.ts
            lastQuerySummary := some querySummary
            lastAgentId := if agentId = "" then ds.lastAgentId else some agentId
            provider := providerFrom sourceProvider ds.provider
            sparkline := jsSliceLast 19 ds.sparkline ++ [latencyMs] }
  let agents :=
    if agentId = "" then s.agents
    else
      match alistGet s.agents agentId with
      | none => s.agents
      | some a =>
          alistSet s.agents agentId
            { incrementAgentTrace a e.ts with
              status := .thinking
              activeQuery := none
              activeQuerySummary := none
              currentStep :=
                some (payloadStringD payload "currentStep" ("query_complete:" ++ sourceType))
              lastAction := some "query_completed"
              percentComplete :=
                some (max (a.percentComplete.getD 0) (payloadNumberD payload "percentComplete" 55))
              lastEvidencePreview :=
                some (toString resultCount ++ " results from " ++ sourceType ++
                  " (" ++ toString latencyMs ++ "ms)")
              evidence :=
                a.evidence ++
                  [{ id := "ev-" ++ toString nowMs
                     sourceType := sourceType
                     summary := querySummary
                     resultCount := resultCount
                     timestamp := e.ts }] }
  { s with
    dataSources := dataSources
    agents := agents
    runProgress :=
      { s.runProgress with
        currentStep := jsOr reportedCurrentStep ("query_complete:" ++ sourceType)
        overallPct := mergedPct reportedRunPct s.runProgress.overallPct
        lastEventKind := some e.kind
        lastUpdateAt := some e.ts } }

/-- The `TOOL_CALLED / TOOL_CALLED_LEGACY` case of `processAgentEvent`. -/
def onToolCalled (nowMs : Nat) (e : WorkflowEvent) (s : AviationState) : AviationState :=
  let payload := e.payload
  let agentId := resolvedAgentId e
  let toolName := payloadStringD payload "toolName" (jsOr (e.tool_name.getD "") "tool")
  if agentId = "" then s
  else
    match alistGet s.agents agentId with
    | none => s
    | some a =>
        { s with
          agents := alistSet s.agents agentId
            { incrementAgentTrace a e.ts with
              toolCalls :=
                a.toolCalls ++
                  [{ id := payloadStringD payload "toolId" ("tool-" ++ toString nowMs)
                     toolName := toolName
                     dataSource :=
                       payloadStringD payload "sourceType" (payloadStringD payload "dataSource" "unknown")
                     status := .running
                     startedAt := some e.ts }]
              currentStep := some (payloadStringD payload "currentStep" ("tool:" ++ toolName))
              lastAction := some "tool_called" } }

/-- The `TOOL_COMPLETED / TOOL_COMPLETED_LEGACY / TOOL_FAILED / TOOL_FAILED_LEGACY` case of `processAgentEvent`. -/
def onToolCompleted (nowMs : Nat) (e : WorkflowEvent) (s : AviationState) : AviationState :=
  let payload := e.payload
  let agentId := resolvedAgentId e
  let toolName := payloadStringD payload "toolName" (jsOr (e.tool_name.getD "") "tool")
  let toolId := payloadString payload "toolId"
  let isFailure := e.kind = EventKinds.TOOL_FAILED ∨ e.kind = EventKinds.TOOL_FAILED_LEGACY
  if agentId = "" then s
  else
    match alistGet s.agents agentId with
    | none => s
    | some a =>
        let updatedCalls :=
          match toolTargetIndex a.toolCalls toolId toolName with
          | none => a.toolCalls
          | some i =>
              updateAt a.toolCalls i (fun tc =>
                { tc with
                  status := if isFailure then .error else .done
                  endedAt := some e.ts
                  latencyMs := payloadNumberOpt payload "latencyMs" tc.latencyMs
                  resultCount := payloadNumberOpt payload "resultCount" tc.resultCount
                  error :=
                    if isFailure then some (payloadStringD payload "error" e.message)
                    else none })
        { s with
          agents := alistSet s.agents agentId
            { incrementAgentTrace a e.ts with
              toolCalls := updatedCalls
              lastAction := some (if isFailure then "tool_failed" else "tool_completed") } }

/-- The `AGENT_EVIDENCE` case of `processAgentEvent`. -/
def onAgentEvidence (nowMs : Nat) (e : WorkflowEvent) (s : AviationState) : AviationState :=
  let payload := e.payload
  let agentId := resolvedAgentId e
  let reportedRunPct := payloadNumberD payload "runProgressPct" (-1)
  let reportedCurrentStep := payloadString payload "currentStep"
  if agentId = "" then s
  else
    match alistGet s.agents agentId with
    | none => s
    | some a =>
        { s with
          agents := alistSet s.agents agentId
            { incrementAgentTrace a e.ts with
              currentStep := some (payloadStringD payload "currentStep" "evidence_collected")
              lastAction := some "evidence_collected"
              evidence :=
                a.evidence ++
                  [{ id := "ev-" ++ toString nowMs
                     sourceType := payloadStringD payload "sourceType" "unknown"
                     summary := payloadStringD payload "summary" e.message
                     resultCount := payloadNumber payload "resultCount"
                     timestamp := e.ts }] }
          runProgress :=
            { s.runProgress with
              currentStep := jsOr reportedCurrentStep "evidence_collected"
              overallPct := mergedPct reportedRunPct s.runProgress.overallPct
              lastEventKind := some e.kind
              lastUpdateAt := some e.ts } }

/-- The `AGENT_RECOMMENDATION` case of `processAgentEvent`. -/
def onAgentRecommendation (nowMs : Nat) (e : WorkflowEvent) (s : AviationState) : AviationState :=
  let payload := e.payload
  let agentId := resolvedAgentId e
  let reportedRunPct := payloadNumberD payload "runProgressPct" (-1)
  let reportedCurrentStep := payloadString payload "currentStep"
  if agentId = "" then s
  else
    match alistGet s.agents agentId with
    | none => s
    | some a =>
        { s with
          agents := alistSet s.agents agentId
            { incrementAgentTrace a e.ts with
              recommendation := some (payloadString payload "recommendation")
              confidence := some (payloadNumber payload "confidence")
              currentStep := some (payloadStringD payload "currentStep" "recommendation_ready")
              lastAction := some "recommendation_ready"
              percentComplete := some (max (a.percentComplete.getD 0) 85) }
          runProgress :=
            { s.runProgress with
              currentStep := jsOr reportedCurrentStep "recommendation_ready"
              overallPct := mergedPct reportedRunPct s.runProgress.overallPct
              lastEventKind := some e.kind
              lastUpdateAt := some e.ts } }

/-- The `SPAN_ENDED` case of `processAgentEvent`. -/
def onSpanEnded (nowMs : Nat) (e : WorkflowEvent) (s : AviationState) : AviationState :=
  let payload := e.payload
  let agentId := resolvedAgentId e
  let reportedRunPct := payloadNumberD payload "runProgressPct" (-1)
  let reportedCurrentStep := payloadString payload "currentStep"
  if agentId = "" then s
  else
    match alistGet s.agents agentId with
    | none => s
    | some a =>
        let success := jsSuccess payload
        let remaining := s.activeAgentIds.filter (· != agentId)
        let newCompleted :=
          if success then setFrom (s.completedAgentIds ++ [agentId]) else s.completedAgentIds
        let newFailed :=
          if success then s.failedAgentIds else setFrom (s.failedAgentIds ++ [agentId])
        { s with
          agents := alistSet s.agents agentId
            { incrementAgentTrace a e.ts with
              status := if success then .done else .error
              currentObjective := none
              activeQuerySummary := none
              spanStartedAt := none
              endedAt := some e.ts
              durationMs := payloadNumberOpt payload "durationMs" a.durationMs
              completionReason :=
                some (payloadStringD payload "completionReason"
                  (if success then "completed" else "failed"))
              lastAction := some (if success then "completed" else "failed")
              percentComplete := if success then some 100 else a.percentComplete }
          activeAgentIds := remaining
          completedAgentIds := newCompleted
          failedAgentIds := newFailed
          runProgress :=
            { s.runProgress with
              agentsRunning := (remaining.length : ℚ)
              agentsDone := (newCompleted.length : ℚ)
              agentsErrored := (newFailed.length : ℚ)
              currentStep :=
                jsOr reportedCurrentStep
                  (if success then "completed:" ++ agentId else "failed:" ++ agentId)
              overallPct := mergedPct reportedRunPct s.runProgress.overallPct
              lastEventKind := some e.kind
              lastUpdateAt := some e.ts } }

/-- The `AGENT_COMPLETED / AGENT_COMPLETED_LEGACY` case of `processAgentEvent`. -/
def onAgentCompleted (nowMs : Nat) (e : WorkflowEvent) (s : AviationState) : AviationState :=
  let payload := e.payload
  let agentId := resolvedAgentId e
  let reportedRunPct := payloadNumberD payload "runProgressPct" (-1)
  let reportedCurrentStep := payloadString payload "currentStep"
  if agentId = "" then s
  else
    match alistGet s.agents agentId with
    | none => s
    | some a =>
        let status := payloadStringD payload "status" "completed"
        let isSuccess := status ≠ "failed"
        let executionCount :=
          payloadNumberD payload "executionCount" (a.executionCount.getD 1)
        let remaining := s.activeAgentIds.filter (· != agentId)
        let newCompleted :=
          if isSuccess then setFrom (s.completedAgentIds ++ [agentId]) else s.completedAgentIds
        let newFailed :=
          if isSuccess then s.failedAgentIds else setFrom (s.failedAgentIds ++ [agentId])
        { s with
          agents := alistSet s.agents agentId
            { incrementAgentTrace a e.ts with
              status := if isSuccess then .done else .error
              recommendation :=
                (fun sm => if sm = "" then a.recommendation else some sm)
                  (payloadString payload "summary")
              completionReason := some (payloadStringD payload "completionReason" status)
              startedAt :=
                match alistGet payload "startedAt" with
                | some (.vstr v) => some v
                | _ => a.startedAt
              endedAt := some (payloadStringD payload "endedAt" e.ts)
              durationMs := payloadNumberOpt payload "durationMs" a.durationMs
              percentComplete := some 100
              lastAction := some (if isSuccess then "agent_completed" else "agent_failed")
              executionCount := some executionCount }
          activeAgentIds := remaining
          completedAgentIds := newCompleted
          failedAgentIds := newFailed
          runProgress :=
            { s.runProgress with
              agentsRunning := (remaining.length : ℚ)
              agentsDone := (newCompleted.length : ℚ)
              agentsErrored := (newFailed.length : ℚ)
              currentStep := jsOr reportedCurrentStep ("agent_completed:" ++ agentId)
              overallPct :=
                if reportedRunPct ≥ 0 then reportedRunPct
                else max s.runProgress.overallPct 90
              lastEventKind := some e.kind
              lastUpdateAt := some e.ts } }

/-- The `HANDOVER` case of `processAgentEvent`. -/
def onHandover (nowMs : Nat) (e : WorkflowEvent) (s : AviationState) : AviationState :=
  let payload := e.payload
  let reportedRunPct := payloadNumberD payload "runProgressPct" (-1)
  let reportedCurrentStep := payloadString payload "currentStep"
  let fromAgent := payloadString payload "fromAgent"
  let toAgent := payloadString payload "toAgent"
  if fromAgent = "" ∨ toAgent = "" then s
  else
    let agents1 :=
      match alistGet s.agents fromAgent with
      | some a => alistSet s.agents fromAgent (incrementAgentTrace a e.ts)
      | none => s.agents
    let agents2 :=
      match alistGet s.agents toAgent with
      | some a => alistSet agents1 toAgent (incrementAgentTrace a e.ts)
      | none => agents1
    { s with
      agents := agents2
      agentEdges :=
        s.agentEdges ++
          [{ id := "edge-" ++ fromAgent ++ "-" ++ toAgent ++ "-" ++ toString nowMs
             source := fromAgent
             target := toAgent
             reason := payloadString payload "reason"
             animated := true
             timestamp := e.ts }]
      runProgress :=
        { s.runProgress with
          currentStep := jsOr reportedCurrentStep ("handover:" ++ fromAgent ++ "->" ++ toAgent)
          overallPct := mergedPct reportedRunPct s.runProgress.overallPct
          lastEventKind := some e.kind
          lastUpdateAt := some e.ts } }

/-- The `COORDINATOR_SCORING` case of `processAgentEvent`. -/
def onCoordinatorScoring (nowMs : Nat) (e : WorkflowEvent) (s : AviationState) : AviationState :=
  let payload := e.payload
  let options := payloadArr payload "options"
  let criteria := payloadArr payload "criteria"
  let s1 := { s with recoveryOptions := options }
  let s2 :=
    match s1.recoveryPlan with
    | some p =>
        { s1 with recoveryPlan := some { p with options := options, criteria := criteria } }
    | none => s1
  { s2 with bottomDrawerTab := .plan, bottomDrawerOpen := true }

/-- The `COORDINATOR_PLAN` case of `processAgentEvent`. -/
def onCoordinatorPlan (nowMs : Nat) (e : WorkflowEvent) (s : AviationState) : AviationState :=
  let payload := e.payload
  let currentOptions := s.recoveryOptions
  let rawTimeline :=
    match alistGet payload "timeline" with
    | some (.varr vs) => vs
    | _ => []
  let timeline := rawTimeline.filterMap parseTimelineEntry
  { s with
    recoveryPlan :=
      some
        { selectedOptionId := payloadString payload "selectedOptionId"
          summary := payloadString payload "summary"
          timeline := timeline
          options :=
            if currentOptions.length > 0 then currentOptions
            else payloadArr payload "options"
          criteria :=
            [PValue.vstr "delay_reduction", PValue.vstr "crew_margin",
             PValue.vstr "safety_score", PValue.vstr "cost_impact",
             PValue.vstr "passenger_impact"] }
    bottomDrawerTab := .plan
    bottomDrawerOpen := true }

/-- The `RECOVERY_OPTION` case of `processAgentEvent`. -/
def onRecoveryOption (nowMs : Nat) (e : WorkflowEvent) (s : AviationState) : AviationState :=
  let payload := e.payload
  let scores := parseRecoveryScores (alistGet payload "scores")
  let overallScore :=
    scores.delay_reduction * 0.25 + scores.crew_margin * 0.15 +
      scores.safety_score * 0.25 + scores.cost_impact * 0.15 +
      scores.passenger_impact * 0.20
  let option : PValue :=
    .vobj
      [ ("optionId", .vstr (payloadString payload "optionId"))
      , ("description", .vstr (payloadString payload "description"))
      , ("rank", .vnum (payloadNumber payload "rank"))
      , ("scores", .vobj
          [ ("delay_reduction", .vnum scores.delay_reduction)
          , ("crew_margin", .vnum scores.crew_margin)
          , ("safety_score", .vnum scores.safety_score)
          , ("cost_impact", .vnum scores.cost_impact)
          , ("passenger_impact", .vnum scores.passenger_impact) ])
      , ("overallScore", .vnum overallScore) ]
  { s with recoveryOptions := s.recoveryOptions ++ [option] }

/-- The `ORCHESTRATOR_PLAN / ORCHESTRATOR_DECISION` case of `processAgentEvent`. -/
def onOrchestratorPlan (nowMs : Nat) (e : WorkflowEvent) (s : AviationState) : AviationState :=
  let payload := e.payload
  let reportedRunPct := payloadNumberD payload "runProgressPct" (-1)
  let reportedCurrentStep := payloadString payload "currentStep"
  { s with
    bottomDrawerTab := .timeline
    bottomDrawerOpen := true
    runProgress :=
      { s.runProgress with
        currentStep := jsOr reportedCurrentStep "orchestrator_planning"
        overallPct := mergedPct reportedRunPct s.runProgress.overallPct
        lastEventKind := some e.kind
        lastUpdateAt := some e.ts } }

/-- The `WORKFLOW_STATUS` case of `processAgentEvent`. -/
def onWorkflowStatus (nowMs : Nat) (e : WorkflowEvent) (s : AviationState) : AviationState :=
  let payload := e.payload
  let reportedRunPct := payloadNumberD payload "runProgressPct" (-1)
  let reportedCurrentStep := payloadString payload "currentStep"
  let executorId := payloadString payload "executor_id"
  let workflowState := payloadString payload "workflowState"
  let agents :=
    if executorId = "" then s.agents
    else
      match alistGet s.agents executorId with
      | some a => alistSet s.agents executorId (incrementAgentTrace a e.ts)
      | none => s.agents
  { s with
    agents := agents
    runProgress :=
      { s.runProgress with
        currentStep :=
          jsOr reportedCurrentStep
            (jsOr workflowState (payloadStringD payload "status" "workflow_status"))
        overallPct := mergedPct reportedRunPct s.runProgress.overallPct
        lastEventKind := some e.kind
        lastUpdateAt := some e.ts } }

/-- The `PROGRESS_UPDATE` case of `processAgentEvent`. -/
def onProgressUpdate (nowMs : Nat) (e : WorkflowEvent) (s : AviationState) : AviationState :=
  let payload := e.payload
  let reportedRunPct := payloadNumberD payload "runProgressPct" (-1)
  let reportedCurrentStep := payloadString payload "currentStep"
  { s with
    runProgress :=
      { s.runProgress with
        overallPct := mergedPct reportedRunPct s.runProgress.overallPct
        agentsTotal := payloadNumberD payload "agentsTotal" s.runProgress.agentsTotal
        agentsActivated := payloadNumberD payload "agentsActivated" s.runProgress.agentsActivated
        agentsRunning := payloadNumberD payload "agentsRunning" s.runProgress.agentsRunning
        agentsDone := payloadNumberD payload "agentsDone" s.runProgress.agentsDone
        agentsErrored := payloadNumberD payload "agentsErrored" s.runProgress.agentsErrored
        currentStep := jsOr reportedCurrentStep s.runProgress.currentStep
        lastEventKind := some e.kind
        lastUpdateAt := some e.ts } }

/-- The `RUN_STARTED` case of `processAgentEvent`. -/
def onRunStarted (nowMs : Nat) (e : WorkflowEvent) (s : AviationState) : AviationState :=
  let payload := e.payload
  let reportedRunPct := payloadNumberD payload "runProgressPct" (-1)
  let reportedCurrentStep := payloadString payload "currentStep"
  { s with
    runProgress :=
      { s.runProgress with
        status := .running
        currentStep := jsOr reportedCurrentStep "run_started"
        overallPct :=
          if reportedRunPct ≥ 0 then reportedRunPct
          else max s.runProgress.overallPct 1
        lastEventKind := some e.kind
        lastUpdateAt := some e.ts } }

/-- The `RUN_COMPLETED` case of `processAgentEvent`. -/
def onRunCompleted (nowMs : Nat) (e : WorkflowEvent) (s : AviationState) : AviationState :=
  { s with
    runProgress :=
      { s.runProgress with
        status := .completed
        overallPct := 100
        agentsRunning := 0
        currentStep := "run_completed"
        lastEventKind := some e.kind
        lastUpdateAt := some e.ts
        isStale := false }
    noUpdateWarning := false }

/-- The `RUN_FAILED` case of `processAgentEvent`. -/
def onRunFailed (nowMs : Nat) (e : WorkflowEvent) (s : AviationState) : AviationState :=
  { s with
    runProgress :=
      { s.runProgress with
        status := .failed
        agentsRunning := 0
        currentStep := "run_failed"
        lastEventKind := some e.kind
        lastUpdateAt := some e.ts
        isStale := false }
    noUpdateWarning := false }

/-- The `processAgentEvent` action: the event-kind dispatch of the reducer,
one transition function per recognized kind (`nowMs` stands for the
`Date.now()` reads used to synthesize evidence/tool/edge ids; a `ℚ` is
printed with `toString` where the source interpolates a number into a
string). -/
def processAgentEvent (nowMs : Nat) (e : WorkflowEvent) (s : AviationState) : AviationState :=
  match e.kind with
  | "agent.activated" => onAgentActivated nowMs e s
  | "agent.excluded" => onAgentExcluded nowMs e s
  | "span.started" => onSpanStarted nowMs e s
  | "agent.objective" => onAgentObjective nowMs e s
  | "agent.progress" | "agent.streaming" => onAgentProgress nowMs e s
  | "executor.invoked" => onExecutorInvoked nowMs e s
  | "executor.completed" => onExecutorCompleted nowMs e s
  | "data_source.query_start" => onQueryStart nowMs e s
  | "data_source.query_complete" => onQueryComplete nowMs e s
  | "tool.called" | "tool_called" => onToolCalled nowMs e s
  | "tool.completed" | "tool_completed" | "tool.failed" | "tool_failed" => onToolCompleted nowMs e s
  | "agent.evidence" => onAgentEvidence nowMs e s
  | "agent.recommendation" => onAgentRecommendation nowMs e s
  | "span.ended" => onSpanEnded nowMs e s
  | "agent.completed" | "agent_completed" => onAgentCompleted nowMs e s
  | "handover" => onHandover nowMs e s
  | "coordinator.scoring" => onCoordinatorScoring nowMs e s
  | "coordinator.plan" => onCoordinatorPlan nowMs e s
  | "recovery.option" => onRecoveryOption nowMs e s
  | "orchestrator.plan" | "orchestrator.decision" => onOrchestratorPlan nowMs e s
  | "workflow.status" => onWorkflowStatus nowMs e s
  | "progress_update" => onProgressUpdate nowMs e s
  | "run_started" => onRunStarted nowMs e s
  | "run_completed" => onRunCompleted nowMs e s
  | "run_failed" => onRunFailed nowMs e s
  | _ => s

/-- The `addEvent` action: the buffer/progress `set`, then
`updateRunFromEvent`, then `processAgentEvent`, each reading the state the
previous one produced (the source's three sequential `set`/`get` rounds). -/
def addEvent (nowMs : Nat) (e : WorkflowEvent) (s : AviationState) : AviationState :=
  processAgentEvent nowMs e (updateRunFromEvent e (addEventCore nowMs e s))

/-- The store part of `handleSSEEvent` in `use-sse.ts`: heartbeats only note
the heartbeat timestamp and return; terminal run events additionally close
the connection after the reducer ran. -/
def handleSSEEvent (nowMs : Nat) (e : WorkflowEvent) (s : AviationState) : AviationState :=
  if e.kind = EventKinds.HEARTBEAT then noteHeartbeat nowMs (some e.ts) s
  else
    let s1 := addEvent nowMs e s
    if e.kind = EventKinds.RUN_COMPLETED ∨ e.kind = EventKinds.RUN_FAILED then
      setConnected false s1
    else s1

/-- The `setSelectedAgent` action. -/
def setSelectedAgent (agentId : Option String) (s : AviationState) : AviationState :=
  { s with selectedAgentId := agentId }

/-- The `setSidebarCollapsed` action. -/
def setSidebarCollapsed (collapsed : Bool) (s : AviationState) : AviationState :=
  { s with sidebarCollapsed := collapsed }

/-- The `setBottomDrawerTab` action. -/
def setBottomDrawerTab (tab : DrawerTab) (s : AviationState) : AviationState :=
  { s with bottomDrawerTab := tab }

/-- The `setBottomDrawerOpen` action. -/
def setBottomDrawerOpen (open_ : Bool) (s : AviationState) : AviationState :=
  { s with bottomDrawerOpen := open_ }


-- ═══════════════════════════════════════════════════════════════════
-- Support lemmas
-- ═══════════════════════════════════════════════════════════════════

attribute [simp] EventKinds.RUN_STARTED EventKinds.RUN_COMPLETED EventKinds.RUN_FAILED EventKinds.STAGE_STARTED EventKinds.STAGE_COMPLETED EventKinds.STAGE_FAILED EventKinds.SPAN_STARTED EventKinds.SPAN_ENDED EventKinds.AGENT_ACTIVATED EventKinds.AGENT_EXCLUDED EventKinds.AGENT_EVIDENCE EventKinds.AGENT_RECOMMENDATION EventKinds.AGENT_STREAMING EventKinds.AGENT_OBJECTIVE EventKinds.AGENT_PROGRESS EventKinds.DATA_SOURCE_QUERY_START EventKinds.DATA_SOURCE_QUERY_COMPLETE EventKinds.EXECUTOR_INVOKED EventKinds.EXECUTOR_COMPLETED EventKinds.AGENT_COMPLETED EventKinds.AGENT_COMPLETED_LEGACY EventKinds.TOOL_CALLED EventKinds.TOOL_COMPLETED EventKinds.TOOL_FAILED EventKinds.TOOL_CALLED_LEGACY EventKinds.TOOL_COMPLETED_LEGACY EventKinds.TOOL_FAILED_LEGACY EventKinds.COORDINATOR_SCORING EventKinds.COORDINATOR_PLAN EventKinds.RECOVERY_OPTION EventKinds.HANDOVER EventKinds.ORCHESTRATOR_PLAN EventKinds.ORCHESTRATOR_DECISION EventKinds.HEARTBEAT EventKinds.PROGRESS_UPDATE EventKinds.WORKFLOW_STATUS

/-- The kinds the reducer recognizes: every value of the `EventKinds` table. -/
def recognizedKinds : List String :=
  ["run_started", "run_completed", "run_failed", "stage_started", "stage_completed",
   "stage_failed", "span.started", "span.ended", "agent.activated", "agent.excluded",
   "agent.evidence", "agent.recommendation", "agent.streaming", "agent.objective",
   "agent.progress", "data_source.query_start", "data_source.query_complete",
   "executor.invoked", "executor.completed", "agent.completed", "agent_completed",
   "tool.called", "tool.completed", "tool.failed", "tool_called", "tool_completed",
   "tool_failed", "coordinator.scoring", "coordinator.plan", "recovery.option",
   "handover", "orchestrator.plan", "orchestrator.decision", "heartbeat",
   "progress_update", "workflow.status"]

/-- The payload carries an authoritative numeric `runProgressPct`. -/
def carriesRunPct (p : Payload) : Prop :=
  ∃ q, alistGet p "runProgressPct" = some (.vnum q)

/-- Without a numeric `runProgressPct`, `payloadNumber` falls back. -/
theorem payloadNumberD_runpct (p : Payload) (f : ℚ) (h : ¬ carriesRunPct p) :
    payloadNumberD p "runProgressPct" f = f := by
  unfold payloadNumberD
  cases hv : alistGet p "runProgressPct" with
  | none => rfl
  | some v => cases v <;> first | rfl | exact absurd ⟨_, hv⟩ h

/-- The per-branch merge keeps the current value when nothing was reported. -/
theorem mergedPct_noreport (x : ℚ) : mergedPct (-1) x = x := by
  norm_num [mergedPct]

/-- Branch selector for an absent report in the `AGENT_COMPLETED` and
`RUN_STARTED` cases. -/
theorem ite_negone_ge (a b : ℚ) : (if (-1 : ℚ) ≥ 0 then a else b) = b := by
  norm_num

/-- Updating a key makes it readable. -/
theorem alistGet_set_self {α : Type} (l : List (String × α)) (k : String) (v : α) :
    alistGet (alistSet l k v) k = some v := by
  induction l with
  | nil => simp [alistSet, alistGet]
  | cons hd tl ih =>
      by_cases hk : hd.1 = k
      · simp [alistSet, hk, alistGet]
      · simp [alistSet, hk, alistGet, ih]

/-- Projection of `addEventCore`: agents. -/
theorem addEventCore_agents (n : Nat) (e : WorkflowEvent) (s : AviationState) :
    (addEventCore n e s).agents = s.agents := by
  simp only [addEventCore]

/-- Projection of `addEventCore`: dataSources. -/
theorem addEventCore_dataSources (n : Nat) (e : WorkflowEvent) (s : AviationState) :
    (addEventCore n e s).dataSources = s.dataSources := by
  simp only [addEventCore]

/-- Projection of `addEventCore`: recoveryPlan. -/
theorem addEventCore_recoveryPlan (n : Nat) (e : WorkflowEvent) (s : AviationState) :
    (addEventCore n e s).recoveryPlan = s.recoveryPlan := by
  simp only [addEventCore]

/-- Projection of `addEventCore`: recoveryOptions. -/
theorem addEventCore_recoveryOptions (n : Nat) (e : WorkflowEvent) (s : AviationState) :
    (addEventCore n e s).recoveryOptions = s.recoveryOptions := by
  simp only [addEventCore]

/-- Projection of `addEventCore`: agentEdges. -/
theorem addEventCore_agentEdges (n : Nat) (e : WorkflowEvent) (s : AviationState) :
    (addEventCore n e s).agentEdges = s.agentEdges := by
  simp only [addEventCore]

/-- Projection of `addEventCore`: isConnected. -/
theorem addEventCore_isConnected (n : Nat) (e : WorkflowEvent) (s : AviationState) :
    (addEventCore n e s).isConnected = s.isConnected := by
  simp only [addEventCore]

/-- Projection of `addEventCore`: isStale. -/
theorem addEventCore_isStale (n : Nat) (e : WorkflowEvent) (s : AviationState) :
    (addEventCore n e s).runProgress.isStale = s.runProgress.isStale := by
  simp only [addEventCore]

/-- Projection of `addEventCore`: events. -/
theorem addEventCore_events (n : Nat) (e : WorkflowEvent) (s : AviationState) :
    (addEventCore n e s).events = jsSliceLast MAX_STORED_EVENTS (s.events ++ [e]) := by
  simp only [addEventCore]

/-- Projection of `addEventCore`: overallPct. -/
theorem addEventCore_overallPct (n : Nat) (e : WorkflowEvent) (s : AviationState) :
    (addEventCore n e s).runProgress.overallPct =
      max s.runProgress.overallPct (payloadNumberD e.payload "runProgressPct" s.runProgress.overallPct) := by
  simp only [addEventCore]

/-- Projection of `addEventCore`: counts. -/
theorem addEventCore_counts (n : Nat) (e : WorkflowEvent) (s : AviationState) :
    (addEventCore n e s).runProgress.agentsTotal = s.runProgress.agentsTotal ∧
      (addEventCore n e s).runProgress.agentsActivated = s.runProgress.agentsActivated ∧
      (addEventCore n e s).runProgress.agentsRunning = s.runProgress.agentsRunning ∧
      (addEventCore n e s).runProgress.agentsDone = s.runProgress.agentsDone ∧
      (addEventCore n e s).runProgress.agentsErrored = s.runProgress.agentsErrored := by
  simp only [addEventCore] <;> and_intros <;> first | rfl | trivial

/-- Projection of `addEventCore`: activeAgentIds. -/
theorem addEventCore_activeAgentIds (n : Nat) (e : WorkflowEvent) (s : AviationState) :
    (addEventCore n e s).activeAgentIds = s.activeAgentIds := by
  simp only [addEventCore]

/-- Projection of `addEventCore`: completedAgentIds. -/
theorem addEventCore_completedAgentIds (n : Nat) (e : WorkflowEvent) (s : AviationState) :
    (addEventCore n e s).completedAgentIds = s.completedAgentIds := by
  simp only [addEventCore]

/-- `addEventCore` records the event timestamp (or the wall clock when the
envelope's `ts` is falsy) as the meaningful-event time for non-heartbeats. -/
theorem addEventCore_lastMeaningful (n : Nat) (e : WorkflowEvent) (s : AviationState) :
    (addEventCore n e s).lastMeaningfulEventAt =
      if isMeaningfulEvent e.kind then some (if e.ts = "" then isoString n else e.ts)
      else s.lastMeaningfulEventAt := by
  simp only [addEventCore]

/-- `addEventCore` keeps the run status for kinds other than the run
transitions. -/
theorem addEventCore_status (n : Nat) (e : WorkflowEvent) (s : AviationState)
    (h1 : e.kind ≠ EventKinds.RUN_COMPLETED) (h2 : e.kind ≠ EventKinds.RUN_FAILED)
    (h3 : e.kind ≠ EventKinds.RUN_STARTED) :
    (addEventCore n e s).runProgress.status = s.runProgress.status := by
  simp only [addEventCore, if_neg h1, if_neg h2, if_neg h3]

/-- `updateRunFromEvent` only replaces `currentRun`: every other component of
the state is untouched. -/
theorem updateRunFromEvent_frame (e : WorkflowEvent) (s : AviationState) :
    (updateRunFromEvent e s).agents = s.agents ∧
    (updateRunFromEvent e s).dataSources = s.dataSources ∧
    (updateRunFromEvent e s).recoveryPlan = s.recoveryPlan ∧
    (updateRunFromEvent e s).recoveryOptions = s.recoveryOptions ∧
    (updateRunFromEvent e s).agentEdges = s.agentEdges ∧
    (updateRunFromEvent e s).isConnected = s.isConnected ∧
    (updateRunFromEvent e s).runProgress = s.runProgress ∧
    (updateRunFromEvent e s).events = s.events ∧
    (updateRunFromEvent e s).lastMeaningfulEventAt = s.lastMeaningfulEventAt ∧
    (updateRunFromEvent e s).activeAgentIds = s.activeAgentIds ∧
    (updateRunFromEvent e s).completedAgentIds = s.completedAgentIds := by
  cases h : s.currentRun <;> simp [updateRunFromEvent, h]

/-- `onAgentActivated` preserves the connection flag, the staleness flag, the event log
and the meaningful-event timestamp. -/
theorem onAgentActivated_frame (n : Nat) (e : WorkflowEvent) (s : AviationState) :
    (onAgentActivated n e s).isConnected = s.isConnected ∧
    (onAgentActivated n e s).events = s.events ∧
    (onAgentActivated n e s).lastMeaningfulEventAt = s.lastMeaningfulEventAt ∧
    (onAgentActivated n e s).runProgress.isStale = s.runProgress.isStale := by
  simp only [onAgentActivated] <;> (repeat' split) <;> and_intros <;> first | rfl | trivial

/-- `onAgentExcluded` preserves the connection flag, the staleness flag, the event log
and the meaningful-event timestamp. -/
theorem onAgentExcluded_frame (n : Nat) (e : WorkflowEvent) (s : AviationState) :
    (onAgentExcluded n e s).isConnected = s.isConnected ∧
    (onAgentExcluded n e s).events = s.events ∧
    (onAgentExcluded n e s).lastMeaningfulEventAt = s.lastMeaningfulEventAt ∧
    (onAgentExcluded n e s).runProgress.isStale = s.runProgress.isStale := by
  simp only [onAgentExcluded] <;> (repeat' split) <;> and_intros <;> first | rfl | trivial

/-- `onSpanStarted` preserves the connection flag, the staleness flag, the event log
and the meaningful-event timestamp. -/
theorem onSpanStarted_frame (n : Nat) (e : WorkflowEvent) (s : AviationState) :
    (onSpanStarted n e s).isConnected = s.isConnected ∧
    (onSpanStarted n e s).events = s.events ∧
    (onSpanStarted n e s).lastMeaningfulEventAt = s.lastMeaningfulEventAt ∧
    (onSpanStarted n e s).runProgress.isStale = s.runProgress.isStale := by
  simp only [onSpanStarted] <;> (repeat' split) <;> and_intros <;> first | rfl | trivial

/-- `onAgentObjective` preserves the connection flag, the staleness flag, the event log
and the meaningful-event timestamp. -/
theorem onAgentObjective_frame (n : Nat) (e : WorkflowEvent) (s : AviationState) :
    (onAgentObjective n e s).isConnected = s.isConnected ∧
    (onAgentObjective n e s).events = s.events ∧
    (onAgentObjective n e s).lastMeaningfulEventAt = s.lastMeaningfulEventAt ∧
    (onAgentObjective n e s).runProgress.isStale = s.runProgress.isStale := by
  simp only [onAgentObjective] <;> (repeat' split) <;> and_intros <;> first | rfl | trivial

/-- `onAgentProgress` preserves the connection flag, the staleness flag, the event log
and the meaningful-event timestamp. -/
theorem onAgentProgress_frame (n : Nat) (e : WorkflowEvent) (s : AviationState) :
    (onAgentProgress n e s).isConnected = s.isConnected ∧
    (onAgentProgress n e s).events = s.events ∧
    (onAgentProgress n e s).lastMeaningfulEventAt = s.lastMeaningfulEventAt ∧
    (onAgentProgress n e s).runProgress.isStale = s.runProgress.isStale := by
  simp only [onAgentProgress] <;> (repeat' split) <;> and_intros <;> first | rfl | trivial

/-- `onExecutorInvoked` preserves the connection flag, the staleness flag, the event log
and the meaningful-event timestamp. -/
theorem onExecutorInvoked_frame (n : Nat) (e : WorkflowEvent) (s : AviationState) :
    (onExecutorInvoked n e s).isConnected = s.isConnected ∧
    (onExecutorInvoked n e s).events = s.events ∧
    (onExecutorInvoked n e s).lastMeaningfulEventAt = s.lastMeaningfulEventAt ∧
    (onExecutorInvoked n e s).runProgress.isStale = s.runProgress.isStale := by
  simp only [onExecutorInvoked] <;> (repeat' split) <;> and_intros <;> first | rfl | trivial

/-- `onExecutorCompleted` preserves the connection flag, the staleness flag, the event log
and the meaningful-event timestamp. -/
theorem onExecutorCompleted_frame (n : Nat) (e : WorkflowEvent) (s : AviationState) :
    (onExecutorCompleted n e s).isConnected = s.isConnected ∧
    (onExecutorCompleted n e s).events = s.events ∧
    (onExecutorCompleted n e s).lastMeaningfulEventAt = s.lastMeaningfulEventAt ∧
    (onExecutorCompleted n e s).runProgress.isStale = s.runProgress.isStale := by
  simp only [onExecutorCompleted] <;> (repeat' split) <;> and_intros <;> first | rfl | trivial

/-- `onQueryStart` preserves the connection flag, the staleness flag, the event log
and the meaningful-event timestamp. -/
theorem onQueryStart_frame (n : Nat) (e : WorkflowEvent) (s : AviationState) :
    (onQueryStart n e s).isConnected = s.isConnected ∧
    (onQueryStart n e s).events = s.events ∧
    (onQueryStart n e s).lastMeaningfulEventAt = s.lastMeaningfulEventAt ∧
    (onQueryStart n e s).runProgress.isStale = s.runProgress.isStale := by
  simp only [onQueryStart] <;> (repeat' split) <;> and_intros <;> first | rfl | trivial

/-- `onQueryComplete` preserves the connection flag, the staleness flag, the event log
and the meaningful-event timestamp. -/
theorem onQueryComplete_frame (n : Nat) (e : WorkflowEvent) (s : AviationState) :
    (onQueryComplete n e s).isConnected = s.isConnected ∧
    (onQueryComplete n e s).events = s.events ∧
    (onQueryComplete n e s).lastMeaningfulEventAt = s.lastMeaningfulEventAt ∧
    (onQueryComplete n e s).runProgress.isStale = s.runProgress.isStale := by
  simp only [onQueryComplete] <;> (repeat' split) <;> and_intros <;> first | rfl | trivial

/-- `onToolCalled` preserves the connection flag, the staleness flag, the event log
and the meaningful-event timestamp. -/
theorem onToolCalled_frame (n : Nat) (e : WorkflowEvent) (s : AviationState) :
    (onToolCalled n e s).isConnected = s.isConnected ∧
    (onToolCalled n e s).events = s.events ∧
    (onToolCalled n e s).lastMeaningfulEventAt = s.lastMeaningfulEventAt ∧
    (onToolCalled n e s).runProgress.isStale = s.runProgress.isStale := by
  simp only [onToolCalled] <;> (repeat' split) <;> and_intros <;> first | rfl | trivial

/-- `onToolCompleted` preserves the connection flag, the staleness flag, the event log
and the meaningful-event timestamp. -/
theorem onToolCompleted_frame (n : Nat) (e : WorkflowEvent) (s : AviationState) :
    (onToolCompleted n e s).isConnected = s.isConnected ∧
    (onToolCompleted n e s).events = s.events ∧
    (onToolCompleted n e s).lastMeaningfulEventAt = s.lastMeaningfulEventAt ∧
    (onToolCompleted n e s).runProgress.isStale = s.runProgress.isStale := by
  simp only [onToolCompleted] <;> (repeat' split) <;> and_intros <;> first | rfl | trivial

/-- `onAgentEvidence` preserves the connection flag, the staleness flag, the event log
and the meaningful-event timestamp. -/
theorem onAgentEvidence_frame (n : Nat) (e : WorkflowEvent) (s : AviationState) :
    (onAgentEvidence n e s).isConnected = s.isConnected ∧
    (onAgentEvidence n e s).events = s.events ∧
    (onAgentEvidence n e s).lastMeaningfulEventAt = s.lastMeaningfulEventAt ∧
    (onAgentEvidence n e s).runProgress.isStale = s.runProgress.isStale := by
  simp only [onAgentEvidence] <;> (repeat' split) <;> and_intros <;> first | rfl | trivial

/-- `onAgentRecommendation` preserves the connection flag, the staleness flag, the event log
and the meaningful-event timestamp. -/
theorem onAgentRecommendation_frame (n : Nat) (e : WorkflowEvent) (s : AviationState) :
    (onAgentRecommendation n e s).isConnected = s.isConnected ∧
    (onAgentRecommendation n e s).events = s.events ∧
    (onAgentRecommendation n e s).lastMeaningfulEventAt = s.lastMeaningfulEventAt ∧
    (onAgentRecommendation n e s).runProgress.isStale = s.runProgress.isStale := by
  simp only [onAgentRecommendation] <;> (repeat' split) <;> and_intros <;> first | rfl | trivial

/-- `onSpanEnded` preserves the connection flag, the staleness flag, the event log
and the meaningful-event timestamp. -/
theorem onSpanEnded_frame (n : Nat) (e : WorkflowEvent) (s : AviationState) :
    (onSpanEnded n e s).isConnected = s.isConnected ∧
    (onSpanEnded n e s).events = s.events ∧
    (onSpanEnded n e s).lastMeaningfulEventAt = s.lastMeaningfulEventAt ∧
    (onSpanEnded n e s).runProgress.isStale = s.runProgress.isStale := by
  simp only [onSpanEnded] <;> (repeat' split) <;> and_intros <;> first | rfl | trivial

/-- `onAgentCompleted` preserves the connection flag, the staleness flag, the event log
and the meaningful-event timestamp. -/
theorem onAgentCompleted_frame (n : Nat) (e : WorkflowEvent) (s : AviationState) :
    (onAgentCompleted n e s).isConnected = s.isConnected ∧
    (onAgentCompleted n e s).events = s.events ∧
    (onAgentCompleted n e s).lastMeaningfulEventAt = s.lastMeaningfulEventAt ∧
    (onAgentCompleted n e s).runProgress.isStale = s.runProgress.isStale := by
  simp only [onAgentCompleted] <;> (repeat' split) <;> and_intros <;> first | rfl | trivial

/-- `onHandover` preserves the connection flag, the staleness flag, the event log
and the meaningful-event timestamp. -/
theorem onHandover_frame (n : Nat) (e : WorkflowEvent) (s : AviationState) :
    (onHandover n e s).isConnected = s.isConnected ∧
    (onHandover n e s).events = s.events ∧
    (onHandover n e s).lastMeaningfulEventAt = s.lastMeaningfulEventAt ∧
    (onHandover n e s).runProgress.isStale = s.runProgress.isStale := by
  simp only [onHandover] <;> (repeat' split) <;> and_intros <;> first | rfl | trivial

/-- `onCoordinatorScoring` preserves the connection flag, the staleness flag, the event log
and the meaningful-event timestamp. -/
theorem onCoordinatorScoring_frame (n : Nat) (e : WorkflowEvent) (s : AviationState) :
    (onCoordinatorScoring n e s).isConnected = s.isConnected ∧
    (onCoordinatorScoring n e s).events = s.events ∧
    (onCoordinatorScoring n e s).lastMeaningfulEventAt = s.lastMeaningfulEventAt ∧
    (onCoordinatorScoring n e s).runProgress.isStale = s.runProgress.isStale := by
  simp only [onCoordinatorScoring] <;> (repeat' split) <;> and_intros <;> first | rfl | trivial

/-- `onCoordinatorPlan` preserves the connection flag, the staleness flag, the event log
and the meaningful-event timestamp. -/
theorem onCoordinatorPlan_frame (n : Nat) (e : WorkflowEvent) (s : AviationState) :
    (onCoordinatorPlan n e s).isConnected = s.isConnected ∧
    (onCoordinatorPlan n e s).events = s.events ∧
    (onCoordinatorPlan n e s).lastMeaningfulEventAt = s.lastMeaningfulEventAt ∧
    (onCoordinatorPlan n e s).runProgress.isStale = s.runProgress.isStale := by
  simp only [onCoordinatorPlan] <;> (repeat' split) <;> and_intros <;> first | rfl | trivial

/-- `onRecoveryOption` preserves the connection flag, the staleness flag, the event log
and the meaningful-event timestamp. -/
theorem onRecoveryOption_frame (n : Nat) (e : WorkflowEvent) (s : AviationState) :
    (onRecoveryOption n e s).isConnected = s.isConnected ∧
    (onRecoveryOption n e s).events = s.events ∧
    (onRecoveryOption n e s).lastMeaningfulEventAt = s.lastMeaningfulEventAt ∧
    (onRecoveryOption n e s).runProgress.isStale = s.runProgress.isStale := by
  simp only [onRecoveryOption] <;> (repeat' split) <;> and_intros <;> first | rfl | trivial

/-- `onOrchestratorPlan` preserves the connection flag, the staleness flag, the event log
and the meaningful-event timestamp. -/
theorem onOrchestratorPlan_frame (n : Nat) (e : WorkflowEvent) (s : AviationState) :
    (onOrchestratorPlan n e s).isConnected = s.isConnected ∧
    (onOrchestratorPlan n e s).events = s.events ∧
    (onOrchestratorPlan n e s).lastMeaningfulEventAt = s.lastMeaningfulEventAt ∧
    (onOrchestratorPlan n e s).runProgress.isStale = s.runProgress.isStale := by
  simp only [onOrchestratorPlan] <;> (repeat' split) <;> and_intros <;> first | rfl | trivial

/-- `onWorkflowStatus` preserves the connection flag, the staleness flag, the event log
and the meaningful-event timestamp. -/
theorem onWorkflowStatus_frame (n : Nat) (e : WorkflowEvent) (s : AviationState) :
    (onWorkflowStatus n e s).isConnected = s.isConnected ∧
    (onWorkflowStatus n e s).events = s.events ∧
    (onWorkflowStatus n e s).lastMeaningfulEventAt = s.lastMeaningfulEventAt ∧
    (onWorkflowStatus n e s).runProgress.isStale = s.runProgress.isStale := by
  simp only [onWorkflowStatus] <;> (repeat' split) <;> and_intros <;> first | rfl | trivial

/-- `onProgressUpdate` preserves the connection flag, the staleness flag, the event log
and the meaningful-event timestamp. -/
theorem onProgressUpdate_frame (n : Nat) (e : WorkflowEvent) (s : AviationState) :
    (onProgressUpdate n e s).isConnected = s.isConnected ∧
    (onProgressUpdate n e s).events = s.events ∧
    (onProgressUpdate n e s).lastMeaningfulEventAt = s.lastMeaningfulEventAt ∧
    (onProgressUpdate n e s).runProgress.isStale = s.runProgress.isStale := by
  simp only [onProgressUpdate] <;> (repeat' split) <;> and_intros <;> first | rfl | trivial

/-- `onRunStarted` preserves the connection flag, the staleness flag, the event log
and the meaningful-event timestamp. -/
theorem onRunStarted_frame (n : Nat) (e : WorkflowEvent) (s : AviationState) :
    (onRunStarted n e s).isConnected = s.isConnected ∧
    (onRunStarted n e s).events = s.events ∧
    (onRunStarted n e s).lastMeaningfulEventAt = s.lastMeaningfulEventAt ∧
    (onRunStarted n e s).runProgress.isStale = s.runProgress.isStale := by
  simp only [onRunStarted] <;> (repeat' split) <;> and_intros <;> first | rfl | trivial

/-- `onRunCompleted` preserves the connection flag, the event log and the
meaningful-event timestamp. -/
theorem onRunCompleted_frame (n : Nat) (e : WorkflowEvent) (s : AviationState) :
    (onRunCompleted n e s).isConnected = s.isConnected ∧
    (onRunCompleted n e s).events = s.events ∧
    (onRunCompleted n e s).lastMeaningfulEventAt = s.lastMeaningfulEventAt := by
  simp only [onRunCompleted] <;> (repeat' split) <;> and_intros <;> first | rfl | trivial

/-- `onRunCompleted` clears the staleness flag. -/
theorem onRunCompleted_isStale (n : Nat) (e : WorkflowEvent) (s : AviationState) :
    (onRunCompleted n e s).runProgress.isStale = false := by
  simp only [onRunCompleted]

/-- `onRunFailed` preserves the connection flag, the event log and the
meaningful-event timestamp. -/
theorem onRunFailed_frame (n : Nat) (e : WorkflowEvent) (s : AviationState) :
    (onRunFailed n e s).isConnected = s.isConnected ∧
    (onRunFailed n e s).events = s.events ∧
    (onRunFailed n e s).lastMeaningfulEventAt = s.lastMeaningfulEventAt := by
  simp only [onRunFailed] <;> (repeat' split) <;> and_intros <;> first | rfl | trivial

/-- `onRunFailed` clears the staleness flag. -/
theorem onRunFailed_isStale (n : Nat) (e : WorkflowEvent) (s : AviationState) :
    (onRunFailed n e s).runProgress.isStale = false := by
  simp only [onRunFailed]

/-- Without a reported `runProgressPct`, `onAgentActivated` keeps `overallPct` within
its monotone envelope. -/
theorem onAgentActivated_pct (n : Nat) (e : WorkflowEvent) (s : AviationState)
    (h : ¬ carriesRunPct e.payload) (h100 : s.runProgress.overallPct ≤ 100) :
    s.runProgress.overallPct ≤ (onAgentActivated n e s).runProgress.overallPct ∧
    (onAgentActivated n e s).runProgress.overallPct ≤ 100 := by
  simp only [onAgentActivated, payloadNumberD_runpct _ _ h, mergedPct_noreport, ite_negone_ge] <;>
    (repeat' split) <;>
    first
      | exact ⟨le_refl _, h100⟩
      | exact ⟨le_max_left _ _, max_le h100 (by norm_num)⟩
      | exact ⟨h100, le_refl _⟩

/-- Without a reported `runProgressPct`, `onAgentExcluded` keeps `overallPct` within
its monotone envelope. -/
theorem onAgentExcluded_pct (n : Nat) (e : WorkflowEvent) (s : AviationState)
    (h : ¬ carriesRunPct e.payload) (h100 : s.runProgress.overallPct ≤ 100) :
    s.runProgress.overallPct ≤ (onAgentExcluded n e s).runProgress.overallPct ∧
    (onAgentExcluded n e s).runProgress.overallPct ≤ 100 := by
  simp only [onAgentExcluded, payloadNumberD_runpct _ _ h, mergedPct_noreport, ite_negone_ge] <;>
    (repeat' split) <;>
    first
      | exact ⟨le_refl _, h100⟩
      | exact ⟨le_max_left _ _, max_le h100 (by norm_num)⟩
      | exact ⟨h100, le_refl _⟩

/-- Without a reported `runProgressPct`, `onSpanStarted` keeps `overallPct` within
its monotone envelope. -/
theorem onSpanStarted_pct (n : Nat) (e : WorkflowEvent) (s : AviationState)
    (h : ¬ carriesRunPct e.payload) (h100 : s.runProgress.overallPct ≤ 100) :
    s.runProgress.overallPct ≤ (onSpanStarted n e s).runProgress.overallPct ∧
    (onSpanStarted n e s).runProgress.overallPct ≤ 100 := by
  simp only [onSpanStarted, payloadNumberD_runpct _ _ h, mergedPct_noreport, ite_negone_ge] <;>
    (repeat' split) <;>
    first
      | exact ⟨le_refl _, h100⟩
      | exact ⟨le_max_left _ _, max_le h100 (by norm_num)⟩
      | exact ⟨h100, le_refl _⟩

/-- Without a reported `runProgressPct`, `onAgentObjective` keeps `overallPct` within
its monotone envelope. -/
theorem onAgentObjective_pct (n : Nat) (e : WorkflowEvent) (s : AviationState)
    (h : ¬ carriesRunPct e.payload) (h100 : s.runProgress.overallPct ≤ 100) :
    s.runProgress.overallPct ≤ (onAgentObjective n e s).runProgress.overallPct ∧
    (onAgentObjective n e s).runProgress.overallPct ≤ 100 := by
  simp only [onAgentObjective, payloadNumberD_runpct _ _ h, mergedPct_noreport, ite_negone_ge] <;>
    (repeat' split) <;>
    first
      | exact ⟨le_refl _, h100⟩
      | exact ⟨le_max_left _ _, max_le h100 (by norm_num)⟩
      | exact ⟨h100, le_refl _⟩

/-- Without a reported `runProgressPct`, `onAgentProgress` keeps `overallPct` within
its monotone envelope. -/
theorem onAgentProgress_pct (n : Nat) (e : WorkflowEvent) (s : AviationState)
    (h : ¬ carriesRunPct e.payload) (h100 : s.runProgress.overallPct ≤ 100) :
    s.runProgress.overallPct ≤ (onAgentProgress n e s).runProgress.overallPct ∧
    (onAgentProgress n e s).runProgress.overallPct ≤ 100 := by
  simp only [onAgentProgress, payloadNumberD_runpct _ _ h, mergedPct_noreport, ite_negone_ge] <;>
    (repeat' split) <;>
    first
      | exact ⟨le_refl _, h100⟩
      | exact ⟨le_max_left _ _, max_le h100 (by norm_num)⟩
      | exact ⟨h100, le_refl _⟩

/-- Without a reported `runProgressPct`, `onExecutorInvoked` keeps `overallPct` within
its monotone envelope. -/
theorem onExecutorInvoked_pct (n : Nat) (e : WorkflowEvent) (s : AviationState)
    (h : ¬ carriesRunPct e.payload) (h100 : s.runProgress.overallPct ≤ 100) :
    s.runProgress.overallPct ≤ (onExecutorInvoked n e s).runProgress.overallPct ∧
    (onExecutorInvoked n e s).runProgress.overallPct ≤ 100 := by
  simp only [onExecutorInvoked, payloadNumberD_runpct _ _ h, mergedPct_noreport, ite_negone_ge] <;>
    (repeat' split) <;>
    first
      | exact ⟨le_refl _, h100⟩
      | exact ⟨le_max_left _ _, max_le h100 (by norm_num)⟩
      | exact ⟨h100, le_refl _⟩

/-- Without a reported `runProgressPct`, `onExecutorCompleted` keeps `overallPct` within
its monotone envelope. -/
theorem onExecutorCompleted_pct (n : Nat) (e : WorkflowEvent) (s : AviationState)
    (h : ¬ carriesRunPct e.payload) (h100 : s.runProgress.overallPct ≤ 100) :
    s.runProgress.overallPct ≤ (onExecutorCompleted n e s).runProgress.overallPct ∧
    (onExecutorCompleted n e s).runProgress.overallPct ≤ 100 := by
  simp only [onExecutorCompleted, payloadNumberD_runpct _ _ h, mergedPct_noreport, ite_negone_ge] <;>
    (repeat' split) <;>
    first
      | exact ⟨le_refl _, h100⟩
      | exact ⟨le_max_left _ _, max_le h100 (by norm_num)⟩
      | exact ⟨h100, le_refl _⟩

/-- Without a reported `runProgressPct`, `onQueryStart` keeps `overallPct` within
its monotone envelope. -/
theorem onQueryStart_pct (n : Nat) (e : WorkflowEvent) (s : AviationState)
    (h : ¬ carriesRunPct e.payload) (h100 : s.runProgress.overallPct ≤ 100) :
    s.runProgress.overallPct ≤ (onQueryStart n e s).runProgress.overallPct ∧
    (onQueryStart n e s).runProgress.overallPct ≤ 100 := by
  simp only [onQueryStart, payloadNumberD_runpct _ _ h, mergedPct_noreport, ite_negone_ge] <;>
    (repeat' split) <;>
    first
      | exact ⟨le_refl _, h100⟩
      | exact ⟨le_max_left _ _, max_le h100 (by norm_num)⟩
      | exact ⟨h100, le_refl _⟩

/-- Without a reported `runProgressPct`, `onQueryComplete` keeps `overallPct` within
its monotone envelope. -/
theorem onQueryComplete_pct (n : Nat) (e : WorkflowEvent) (s : AviationState)
    (h : ¬ carriesRunPct e.payload) (h100 : s.runProgress.overallPct ≤ 100) :
    s.runProgress.overallPct ≤ (onQueryComplete n e s).runProgress.overallPct ∧
    (onQueryComplete n e s).runProgress.overallPct ≤ 100 := by
  simp only [onQueryComplete, payloadNumberD_runpct _ _ h, mergedPct_noreport, ite_negone_ge] <;>
    (repeat' split) <;>
    first
      | exact ⟨le_refl _, h100⟩
      | exact ⟨le_max_left _ _, max_le h100 (by norm_num)⟩
      | exact ⟨h100, le_refl _⟩

/-- Without a reported `runProgressPct`, `onToolCalled` keeps `overallPct` within
its monotone envelope. -/
theorem onToolCalled_pct (n : Nat) (e : WorkflowEvent) (s : AviationState)
    (h : ¬ carriesRunPct e.payload) (h100 : s.runProgress.overallPct ≤ 100) :
    s.runProgress.overallPct ≤ (onToolCalled n e s).runProgress.overallPct ∧
    (onToolCalled n e s).runProgress.overallPct ≤ 100 := by
  simp only [onToolCalled, payloadNumberD_runpct _ _ h, mergedPct_noreport, ite_negone_ge] <;>
    (repeat' split) <;>
    first
      | exact ⟨le_refl _, h100⟩
      | exact ⟨le_max_left _ _, max_le h100 (by norm_num)⟩
      | exact ⟨h100, le_refl _⟩

/-- Without a reported `runProgressPct`, `onToolCompleted` keeps `overallPct` within
its monotone envelope. -/
theorem onToolCompleted_pct (n : Nat) (e : WorkflowEvent) (s : AviationState)
    (h : ¬ carriesRunPct e.payload) (h100 : s.runProgress.overallPct ≤ 100) :
    s.runProgress.overallPct ≤ (onToolCompleted n e s).runProgress.overallPct ∧
    (onToolCompleted n e s).runProgress.overallPct ≤ 100 := by
  simp only [onToolCompleted, payloadNumberD_runpct _ _ h, mergedPct_noreport, ite_negone_ge] <;>
    (repeat' split) <;>
    first
      | exact ⟨le_refl _, h100⟩
      | exact ⟨le_max_left _ _, max_le h100 (by norm_num)⟩
      | exact ⟨h100, le_refl _⟩

/-- Without a reported `runProgressPct`, `onAgentEvidence` keeps `overallPct` within
its monotone envelope. -/
theorem onAgentEvidence_pct (n : Nat) (e : WorkflowEvent) (s : AviationState)
    (h : ¬ carriesRunPct e.payload) (h100 : s.runProgress.overallPct ≤ 100) :
    s.runProgress.overallPct ≤ (onAgentEvidence n e s).runProgress.overallPct ∧
    (onAgentEvidence n e s).runProgress.overallPct ≤ 100 := by
  simp only [onAgentEvidence, payloadNumberD_runpct _ _ h, mergedPct_noreport, ite_negone_ge] <;>
    (repeat' split) <;>
    first
      | exact ⟨le_refl _, h100⟩
      | exact ⟨le_max_left _ _, max_le h100 (by norm_num)⟩
      | exact ⟨h100, le_refl _⟩

/-- Without a reported `runProgressPct`, `onAgentRecommendation` keeps `overallPct` within
its monotone envelope. -/
theorem onAgentRecommendation_pct (n : Nat) (e : WorkflowEvent) (s : AviationState)
    (h : ¬ carriesRunPct e.payload) (h100 : s.runProgress.overallPct ≤ 100) :
    s.runProgress.overallPct ≤ (onAgentRecommendation n e s).runProgress.overallPct ∧
    (onAgentRecommendation n e s).runProgress.overallPct ≤ 100 := by
  simp only [onAgentRecommendation, payloadNumberD_runpct _ _ h, mergedPct_noreport, ite_negone_ge] <;>
    (repeat' split) <;>
    first
      | exact ⟨le_refl _, h100⟩
      | exact ⟨le_max_left _ _, max_le h100 (by norm_num)⟩
      | exact ⟨h100, le_refl _⟩

/-- Without a reported `runProgressPct`, `onSpanEnded` keeps `overallPct` within
its monotone envelope. -/
theorem onSpanEnded_pct (n : Nat) (e : WorkflowEvent) (s : AviationState)
    (h : ¬ carriesRunPct e.payload) (h100 : s.runProgress.overallPct ≤ 100) :
    s.runProgress.overallPct ≤ (onSpanEnded n e s).runProgress.overallPct ∧
    (onSpanEnded n e s).runProgress.overallPct ≤ 100 := by
  simp only [onSpanEnded, payloadNumberD_runpct _ _ h, mergedPct_noreport, ite_negone_ge] <;>
    (repeat' split) <;>
    first
      | exact ⟨le_refl _, h100⟩
      | exact ⟨le_max_left _ _, max_le h100 (by norm_num)⟩
      | exact ⟨h100, le_refl _⟩

/-- Without a reported `runProgressPct`, `onAgentCompleted` keeps `overallPct` within
its monotone envelope. -/
theorem onAgentCompleted_pct (n : Nat) (e : WorkflowEvent) (s : AviationState)
    (h : ¬ carriesRunPct e.payload) (h100 : s.runProgress.overallPct ≤ 100) :
    s.runProgress.overallPct ≤ (onAgentCompleted n e s).runProgress.overallPct ∧
    (onAgentCompleted n e s).runProgress.overallPct ≤ 100 := by
  simp only [onAgentCompleted, payloadNumberD_runpct _ _ h, mergedPct_noreport, ite_negone_ge] <;>
    (repeat' split) <;>
    first
      | exact ⟨le_refl _, h100⟩
      | exact ⟨le_max_left _ _, max_le h100 (by norm_num)⟩
      | exact ⟨h100, le_refl _⟩

/-- Without a reported `runProgressPct`, `onHandover` keeps `overallPct` within
its monotone envelope. -/
theorem onHandover_pct (n : Nat) (e : WorkflowEvent) (s : AviationState)
    (h : ¬ carriesRunPct e.payload) (h100 : s.runProgress.overallPct ≤ 100) :
    s.runProgress.overallPct ≤ (onHandover n e s).runProgress.overallPct ∧
    (onHandover n e s).runProgress.overallPct ≤ 100 := by
  simp only [onHandover, payloadNumberD_runpct _ _ h, mergedPct_noreport, ite_negone_ge] <;>
    (repeat' split) <;>
    first
      | exact ⟨le_refl _, h100⟩
      | exact ⟨le_max_left _ _, max_le h100 (by norm_num)⟩
      | exact ⟨h100, le_refl _⟩

/-- Without a reported `runProgressPct`, `onCoordinatorScoring` keeps `overallPct` within
its monotone envelope. -/
theorem onCoordinatorScoring_pct (n : Nat) (e : WorkflowEvent) (s : AviationState)
    (h : ¬ carriesRunPct e.payload) (h100 : s.runProgress.overallPct ≤ 100) :
    s.runProgress.overallPct ≤ (onCoordinatorScoring n e s).runProgress.overallPct ∧
    (onCoordinatorScoring n e s).runProgress.overallPct ≤ 100 := by
  simp only [onCoordinatorScoring, payloadNumberD_runpct _ _ h, mergedPct_noreport, ite_negone_ge] <;>
    (repeat' split) <;>
    first
      | exact ⟨le_refl _, h100⟩
      | exact ⟨le_max_left _ _, max_le h100 (by norm_num)⟩
      | exact ⟨h100, le_refl _⟩

/-- Without a reported `runProgressPct`, `onCoordinatorPlan` keeps `overallPct` within
its monotone envelope. -/
theorem onCoordinatorPlan_pct (n : Nat) (e : WorkflowEvent) (s : AviationState)
    (h : ¬ carriesRunPct e.payload) (h100 : s.runProgress.overallPct ≤ 100) :
    s.runProgress.overallPct ≤ (onCoordinatorPlan n e s).runProgress.overallPct ∧
    (onCoordinatorPlan n e s).runProgress.overallPct ≤ 100 := by
  simp only [onCoordinatorPlan, payloadNumberD_runpct _ _ h, mergedPct_noreport, ite_negone_ge] <;>
    (repeat' split) <;>
    first
      | exact ⟨le_refl _, h100⟩
      | exact ⟨le_max_left _ _, max_le h100 (by norm_num)⟩
      | exact ⟨h100, le_refl _⟩

/-- Without a reported `runProgressPct`, `onRecoveryOption` keeps `overallPct` within
its monotone envelope. -/
theorem onRecoveryOption_pct (n : Nat) (e : WorkflowEvent) (s : AviationState)
    (h : ¬ carriesRunPct e.payload) (h100 : s.runProgress.overallPct ≤ 100) :
    s.runProgress.overallPct ≤ (onRecoveryOption n e s).runProgress.overallPct ∧
    (onRecoveryOption n e s).runProgress.overallPct ≤ 100 := by
  simp only [onRecoveryOption, payloadNumberD_runpct _ _ h, mergedPct_noreport, ite_negone_ge] <;>
    (repeat' split) <;>
    first
      | exact ⟨le_refl _, h100⟩
      | exact ⟨le_max_left _ _, max_le h100 (by norm_num)⟩
      | exact ⟨h100, le_refl _⟩

/-- Without a reported `runProgressPct`, `onOrchestratorPlan` keeps `overallPct` within
its monotone envelope. -/
theorem onOrchestratorPlan_pct (n : Nat) (e : WorkflowEvent) (s : AviationState)
    (h : ¬ carriesRunPct e.payload) (h100 : s.runProgress.overallPct ≤ 100) :
    s.runProgress.overallPct ≤ (onOrchestratorPlan n e s).runProgress.overallPct ∧
    (onOrchestratorPlan n e s).runProgress.overallPct ≤ 100 := by
  simp only [onOrchestratorPlan, payloadNumberD_runpct _ _ h, mergedPct_noreport, ite_negone_ge] <;>
    (repeat' split) <;>
    first
      | exact ⟨le_refl _, h100⟩
      | exact ⟨le_max_left _ _, max_le h100 (by norm_num)⟩
      | exact ⟨h100, le_refl _⟩

/-- Without a reported `runProgressPct`, `onWorkflowStatus` keeps `overallPct` within
its monotone envelope. -/
theorem onWorkflowStatus_pct (n : Nat) (e : WorkflowEvent) (s : AviationState)
    (h : ¬ carriesRunPct e.payload) (h100 : s.runProgress.overallPct ≤ 100) :
    s.runProgress.overallPct ≤ (onWorkflowStatus n e s).runProgress.overallPct ∧
    (onWorkflowStatus n e s).runProgress.overallPct ≤ 100 := by
  simp only [onWorkflowStatus, payloadNumberD_runpct _ _ h, mergedPct_noreport, ite_negone_ge] <;>
    (repeat' split) <;>
    first
      | exact ⟨le_refl _, h100⟩
      | exact ⟨le_max_left _ _, max_le h100 (by norm_num)⟩
      | exact ⟨h100, le_refl _⟩

/-- Without a reported `runProgressPct`, `onProgressUpdate` keeps `overallPct` within
its monotone envelope. -/
theorem onProgressUpdate_pct (n : Nat) (e : WorkflowEvent) (s : AviationState)
    (h : ¬ carriesRunPct e.payload) (h100 : s.runProgress.overallPct ≤ 100) :
    s.runProgress.overallPct ≤ (onProgressUpdate n e s).runProgress.overallPct ∧
    (onProgressUpdate n e s).runProgress.overallPct ≤ 100 := by
  simp only [onProgressUpdate, payloadNumberD_runpct _ _ h, mergedPct_noreport, ite_negone_ge] <;>
    (repeat' split) <;>
    first
      | exact ⟨le_refl _, h100⟩
      | exact ⟨le_max_left _ _, max_le h100 (by norm_num)⟩
      | exact ⟨h100, le_refl _⟩

/-- Without a reported `runProgressPct`, `onRunStarted` keeps `overallPct` within
its monotone envelope. -/
theorem onRunStarted_pct (n : Nat) (e : WorkflowEvent) (s : AviationState)
    (h : ¬ carriesRunPct e.payload) (h100 : s.runProgress.overallPct ≤ 100) :
    s.runProgress.overallPct ≤ (onRunStarted n e s).runProgress.overallPct ∧
    (onRunStarted n e s).runProgress.overallPct ≤ 100 := by
  simp only [onRunStarted, payloadNumberD_runpct _ _ h, mergedPct_noreport, ite_negone_ge] <;>
    (repeat' split) <;>
    first
      | exact ⟨le_refl _, h100⟩
      | exact ⟨le_max_left _ _, max_le h100 (by norm_num)⟩
      | exact ⟨h100, le_refl _⟩

/-- Without a reported `runProgressPct`, `onRunCompleted` keeps `overallPct` within
its monotone envelope. -/
theorem onRunCompleted_pct (n : Nat) (e : WorkflowEvent) (s : AviationState)
    (h : ¬ carriesRunPct e.payload) (h100 : s.runProgress.overallPct ≤ 100) :
    s.runProgress.overallPct ≤ (onRunCompleted n e s).runProgress.overallPct ∧
    (onRunCompleted n e s).runProgress.overallPct ≤ 100 := by
  simp only [onRunCompleted, payloadNumberD_runpct _ _ h, mergedPct_noreport, ite_negone_ge] <;>
    (repeat' split) <;>
    first
      | exact ⟨le_refl _, h100⟩
      | exact ⟨le_max_left _ _, max_le h100 (by norm_num)⟩
      | exact ⟨h100, le_refl _⟩

/-- Without a reported `runProgressPct`, `onRunFailed` keeps `overallPct` within
its monotone envelope. -/
theorem onRunFailed_pct (n : Nat) (e : WorkflowEvent) (s : AviationState)
    (h : ¬ carriesRunPct e.payload) (h100 : s.runProgress.overallPct ≤ 100) :
    s.runProgress.overallPct ≤ (onRunFailed n e s).runProgress.overallPct ∧
    (onRunFailed n e s).runProgress.overallPct ≤ 100 := by
  simp only [onRunFailed, payloadNumberD_runpct _ _ h, mergedPct_noreport, ite_negone_ge] <;>
    (repeat' split) <;>
    first
      | exact ⟨le_refl _, h100⟩
      | exact ⟨le_max_left _ _, max_le h100 (by norm_num)⟩
      | exact ⟨h100, le_refl _⟩

/-- The reducer never touches the connection flag. -/
theorem processAgentEvent_isConnected (n : Nat) (e : WorkflowEvent) (s : AviationState) :
    (processAgentEvent n e s).isConnected = s.isConnected := by
  unfold processAgentEvent
  split
  · exact (onAgentActivated_frame n e s).1
  · exact (onAgentExcluded_frame n e s).1
  · exact (onSpanStarted_frame n e s).1
  · exact (onAgentObjective_frame n e s).1
  · exact (onAgentProgress_frame n e s).1
  · exact (onAgentProgress_frame n e s).1
  · exact (onExecutorInvoked_frame n e s).1
  · exact (onExecutorCompleted_frame n e s).1
  · exact (onQueryStart_frame n e s).1
  · exact (onQueryComplete_frame n e s).1
  · exact (onToolCalled_frame n e s).1
  · exact (onToolCalled_frame n e s).1
  · exact (onToolCompleted_frame n e s).1
  · exact (onToolCompleted_frame n e s).1
  · exact (onToolCompleted_frame n e s).1
  · exact (onToolCompleted_frame n e s).1
  · exact (onAgentEvidence_frame n e s).1
  · exact (onAgentRecommendation_frame n e s).1
  · exact (onSpanEnded_frame n e s).1
  · exact (onAgentCompleted_frame n e s).1
  · exact (onAgentCompleted_frame n e s).1
  · exact (onHandover_frame n e s).1
  · exact (onCoordinatorScoring_frame n e s).1
  · exact (onCoordinatorPlan_frame n e s).1
  · exact (onRecoveryOption_frame n e s).1
  · exact (onOrchestratorPlan_frame n e s).1
  · exact (onOrchestratorPlan_frame n e s).1
  · exact (onWorkflowStatus_frame n e s).1
  · exact (onProgressUpdate_frame n e s).1
  · exact (onRunStarted_frame n e s).1
  · exact (onRunCompleted_frame n e s).1
  · exact (onRunFailed_frame n e s).1
  · rfl

/-- The reducer never touches the admitted event log. -/
theorem processAgentEvent_events (n : Nat) (e : WorkflowEvent) (s : AviationState) :
    (processAgentEvent n e s).events = s.events := by
  unfold processAgentEvent
  split
  · exact (onAgentActivated_frame n e s).2.1
  · exact (onAgentExcluded_frame n e s).2.1
  · exact (onSpanStarted_frame n e s).2.1
  · exact (onAgentObjective_frame n e s).2.1
  · exact (onAgentProgress_frame n e s).2.1
  · exact (onAgentProgress_frame n e s).2.1
  · exact (onExecutorInvoked_frame n e s).2.1
  · exact (onExecutorCompleted_frame n e s).2.1
  · exact (onQueryStart_frame n e s).2.1
  · exact (onQueryComplete_frame n e s).2.1
  · exact (onToolCalled_frame n e s).2.1
  · exact (onToolCalled_frame n e s).2.1
  · exact (onToolCompleted_frame n e s).2.1
  · exact (onToolCompleted_frame n e s).2.1
  · exact (onToolCompleted_frame n e s).2.1
  · exact (onToolCompleted_frame n e s).2.1
  · exact (onAgentEvidence_frame n e s).2.1
  · exact (onAgentRecommendation_frame n e s).2.1
  · exact (onSpanEnded_frame n e s).2.1
  · exact (onAgentCompleted_frame n e s).2.1
  · exact (onAgentCompleted_frame n e s).2.1
  · exact (onHandover_frame n e s).2.1
  · exact (onCoordinatorScoring_frame n e s).2.1
  · exact (onCoordinatorPlan_frame n e s).2.1
  · exact (onRecoveryOption_frame n e s).2.1
  · exact (onOrchestratorPlan_frame n e s).2.1
  · exact (onOrchestratorPlan_frame n e s).2.1
  · exact (onWorkflowStatus_frame n e s).2.1
  · exact (onProgressUpdate_frame n e s).2.1
  · exact (onRunStarted_frame n e s).2.1
  · exact (onRunCompleted_frame n e s).2.1
  · exact (onRunFailed_frame n e s).2.1
  · rfl

/-- The reducer never touches the meaningful-event timestamp. -/
theorem processAgentEvent_lastMeaningful (n : Nat) (e : WorkflowEvent) (s : AviationState) :
    (processAgentEvent n e s).lastMeaningfulEventAt = s.lastMeaningfulEventAt := by
  unfold processAgentEvent
  split
  · exact (onAgentActivated_frame n e s).2.2.1
  · exact (onAgentExcluded_frame n e s).2.2.1
  · exact (onSpanStarted_frame n e s).2.2.1
  · exact (onAgentObjective_frame n e s).2.2.1
  · exact (onAgentProgress_frame n e s).2.2.1
  · exact (onAgentProgress_frame n e s).2.2.1
  · exact (onExecutorInvoked_frame n e s).2.2.1
  · exact (onExecutorCompleted_frame n e s).2.2.1
  · exact (onQueryStart_frame n e s).2.2.1
  · exact (onQueryComplete_frame n e s).2.2.1
  · exact (onToolCalled_frame n e s).2.2.1
  · exact (onToolCalled_frame n e s).2.2.1
  · exact (onToolCompleted_frame n e s).2.2.1
  · exact (onToolCompleted_frame n e s).2.2.1
  · exact (onToolCompleted_frame n e s).2.2.1
  · exact (onToolCompleted_frame n e s).2.2.1
  · exact (onAgentEvidence_frame n e s).2.2.1
  · exact (onAgentRecommendation_frame n e s).2.2.1
  · exact (onSpanEnded_frame n e s).2.2.1
  · exact (onAgentCompleted_frame n e s).2.2.1
  · exact (onAgentCompleted_frame n e s).2.2.1
  · exact (onHandover_frame n e s).2.2.1
  · exact (onCoordinatorScoring_frame n e s).2.2.1
  · exact (onCoordinatorPlan_frame n e s).2.2.1
  · exact (onRecoveryOption_frame n e s).2.2.1
  · exact (onOrchestratorPlan_frame n e s).2.2.1
  · exact (onOrchestratorPlan_frame n e s).2.2.1
  · exact (onWorkflowStatus_frame n e s).2.2.1
  · exact (onProgressUpdate_frame n e s).2.2.1
  · exact (onRunStarted_frame n e s).2.2.1
  · exact (onRunCompleted_frame n e s).2.2
  · exact (onRunFailed_frame n e s).2.2
  · rfl

/-- The reducer either keeps the staleness flag or clears it (terminal run
events); it never sets it. -/
theorem processAgentEvent_isStale (n : Nat) (e : WorkflowEvent) (s : AviationState) :
    (processAgentEvent n e s).runProgress.isStale = s.runProgress.isStale ∨
    (processAgentEvent n e s).runProgress.isStale = false := by
  unfold processAgentEvent
  split
  · exact Or.inl (onAgentActivated_frame n e s).2.2.2
  · exact Or.inl (onAgentExcluded_frame n e s).2.2.2
  · exact Or.inl (onSpanStarted_frame n e s).2.2.2
  · exact Or.inl (onAgentObjective_frame n e s).2.2.2
  · exact Or.inl (onAgentProgress_frame n e s).2.2.2
  · exact Or.inl (onAgentProgress_frame n e s).2.2.2
  · exact Or.inl (onExecutorInvoked_frame n e s).2.2.2
  · exact Or.inl (onExecutorCompleted_frame n e s).2.2.2
  · exact Or.inl (onQueryStart_frame n e s).2.2.2
  · exact Or.inl (onQueryComplete_frame n e s).2.2.2
  · exact Or.inl (onToolCalled_frame n e s).2.2.2
  · exact Or.inl (onToolCalled_frame n e s).2.2.2
  · exact Or.inl (onToolCompleted_frame n e s).2.2.2
  · exact Or.inl (onToolCompleted_frame n e s).2.2.2
  · exact Or.inl (onToolCompleted_frame n e s).2.2.2
  · exact Or.inl (onToolCompleted_frame n e s).2.2.2
  · exact Or.inl (onAgentEvidence_frame n e s).2.2.2
  · exact Or.inl (onAgentRecommendation_frame n e s).2.2.2
  · exact Or.inl (onSpanEnded_frame n e s).2.2.2
  · exact Or.inl (onAgentCompleted_frame n e s).2.2.2
  · exact Or.inl (onAgentCompleted_frame n e s).2.2.2
  · exact Or.inl (onHandover_frame n e s).2.2.2
  · exact Or.inl (onCoordinatorScoring_frame n e s).2.2.2
  · exact Or.inl (onCoordinatorPlan_frame n e s).2.2.2
  · exact Or.inl (onRecoveryOption_frame n e s).2.2.2
  · exact Or.inl (onOrchestratorPlan_frame n e s).2.2.2
  · exact Or.inl (onOrchestratorPlan_frame n e s).2.2.2
  · exact Or.inl (onWorkflowStatus_frame n e s).2.2.2
  · exact Or.inl (onProgressUpdate_frame n e s).2.2.2
  · exact Or.inl (onRunStarted_frame n e s).2.2.2
  · exact Or.inr (onRunCompleted_isStale n e s)
  · exact Or.inr (onRunFailed_isStale n e s)
  · exact Or.inl rfl

/-- Without a reported `runProgressPct`, one reducer step keeps `overallPct`
within its monotone envelope. -/
theorem processAgentEvent_pct (n : Nat) (e : WorkflowEvent) (s : AviationState)
    (h : ¬ carriesRunPct e.payload) (h100 : s.runProgress.overallPct ≤ 100) :
    s.runProgress.overallPct ≤ (processAgentEvent n e s).runProgress.overallPct ∧
    (processAgentEvent n e s).runProgress.overallPct ≤ 100 := by
  unfold processAgentEvent
  split
  · exact onAgentActivated_pct n e s h h100
  · exact onAgentExcluded_pct n e s h h100
  · exact onSpanStarted_pct n e s h h100
  · exact onAgentObjective_pct n e s h h100
  · exact onAgentProgress_pct n e s h h100
  · exact onAgentProgress_pct n e s h h100
  · exact onExecutorInvoked_pct n e s h h100
  · exact onExecutorCompleted_pct n e s h h100
  · exact onQueryStart_pct n e s h h100
  · exact onQueryComplete_pct n e s h h100
  · exact onToolCalled_pct n e s h h100
  · exact onToolCalled_pct n e s h h100
  · exact onToolCompleted_pct n e s h h100
  · exact onToolCompleted_pct n e s h h100
  · exact onToolCompleted_pct n e s h h100
  · exact onToolCompleted_pct n e s h h100
  · exact onAgentEvidence_pct n e s h h100
  · exact onAgentRecommendation_pct n e s h h100
  · exact onSpanEnded_pct n e s h h100
  · exact onAgentCompleted_pct n e s h h100
  · exact onAgentCompleted_pct n e s h h100
  · exact onHandover_pct n e s h h100
  · exact onCoordinatorScoring_pct n e s h h100
  · exact onCoordinatorPlan_pct n e s h h100
  · exact onRecoveryOption_pct n e s h h100
  · exact onOrchestratorPlan_pct n e s h h100
  · exact onOrchestratorPlan_pct n e s h h100
  · exact onWorkflowStatus_pct n e s h h100
  · exact onProgressUpdate_pct n e s h h100
  · exact onRunStarted_pct n e s h h100
  · exact onRunCompleted_pct n e s h h100
  · exact onRunFailed_pct n e s h h100
  · exact ⟨le_refl _, h100⟩

/-- An unrecognized kind falls through every dispatch test: the reducer is the
identity on the state. -/
theorem processAgentEvent_unrecognized (n : Nat) (e : WorkflowEvent) (s : AviationState)
    (h : e.kind ∉ recognizedKinds) : processAgentEvent n e s = s := by
  simp only [recognizedKinds, List.mem_cons, List.not_mem_nil, or_false, not_or] at h
  simp [processAgentEvent, h]


/-- Component accessor: `updateRunFromEvent` keeps the agent registry. -/
theorem updateRun_agents (e : WorkflowEvent) (s : AviationState) :
    (updateRunFromEvent e s).agents = s.agents := (updateRunFromEvent_frame e s).1

/-- Component accessor: `updateRunFromEvent` keeps the data sources. -/
theorem updateRun_dataSources (e : WorkflowEvent) (s : AviationState) :
    (updateRunFromEvent e s).dataSources = s.dataSources := (updateRunFromEvent_frame e s).2.1

/-- Component accessor: `updateRunFromEvent` keeps the recovery plan. -/
theorem updateRun_recoveryPlan (e : WorkflowEvent) (s : AviationState) :
    (updateRunFromEvent e s).recoveryPlan = s.recoveryPlan := (updateRunFromEvent_frame e s).2.2.1

/-- Component accessor: `updateRunFromEvent` keeps the recovery options. -/
theorem updateRun_recoveryOptions (e : WorkflowEvent) (s : AviationState) :
    (updateRunFromEvent e s).recoveryOptions = s.recoveryOptions :=
  (updateRunFromEvent_frame e s).2.2.2.1

/-- Component accessor: `updateRunFromEvent` keeps the agent edges. -/
theorem updateRun_agentEdges (e : WorkflowEvent) (s : AviationState) :
    (updateRunFromEvent e s).agentEdges = s.agentEdges := (updateRunFromEvent_frame e s).2.2.2.2.1

/-- Component accessor: `updateRunFromEvent` keeps the connection flag. -/
theorem updateRun_isConnected (e : WorkflowEvent) (s : AviationState) :
    (updateRunFromEvent e s).isConnected = s.isConnected :=
  (updateRunFromEvent_frame e s).2.2.2.2.2.1

/-- Component accessor: `updateRunFromEvent` keeps the whole run progress. -/
theorem updateRun_runProgress (e : WorkflowEvent) (s : AviationState) :
    (updateRunFromEvent e s).runProgress = s.runProgress :=
  (updateRunFromEvent_frame e s).2.2.2.2.2.2.1

/-- Component accessor: `updateRunFromEvent` keeps the event log. -/
theorem updateRun_events (e : WorkflowEvent) (s : AviationState) :
    (updateRunFromEvent e s).events = s.events := (updateRunFromEvent_frame e s).2.2.2.2.2.2.2.1

/-- Component accessor: `updateRunFromEvent` keeps the meaningful-event time. -/
theorem updateRun_lastMeaningful (e : WorkflowEvent) (s : AviationState) :
    (updateRunFromEvent e s).lastMeaningfulEventAt = s.lastMeaningfulEventAt :=
  (updateRunFromEvent_frame e s).2.2.2.2.2.2.2.2.1

-- ═══════════════════════════════════════════════════════════════════
-- Claim C2: the roster scenario
-- ═══════════════════════════════════════════════════════════════════

/-- Roster entry A (included) of the specification scenario. -/
def c2RosterA : AgentInfo :=
  { id := "A", name := "Agent A", icon := "plane", color := "#123456"
    dataSources := ["SQL"], included := true, reason := "relevant" }

/-- Roster entry B (excluded) of the specification scenario. -/
def c2RosterB : AgentInfo :=
  { id := "B", name := "Agent B", icon := "radar", color := "#654321"
    dataSources := [], included := false, reason := "out of scope" }

/-- The scenario's starting state: the roster initialized on a fresh store. -/
def c2State0 : AviationState :=
  initializeAgents [c2RosterA, c2RosterB] "diversion" initialState

/-- `agent.activated(A)`. -/
def c2Activated : WorkflowEvent :=
  { event_id := "c2-1", ts := "1000", kind := "agent.activated"
    payload := [("agentId", .vstr "A")] }

/-- `data_source.query_start(A, SQL)`. -/
def c2QueryStart : WorkflowEvent :=
  { event_id := "c2-2", ts := "2000", kind := "data_source.query_start"
    payload := [("agentId", .vstr "A"), ("sourceType", .vstr "SQL")] }

/-- `data_source.query_complete(A, SQL, latencyMs = 120, resultCount = 7)`. -/
def c2QueryComplete : WorkflowEvent :=
  { event_id := "c2-3", ts := "3000", kind := "data_source.query_complete"
    payload := [("agentId", .vstr "A"), ("sourceType", .vstr "SQL"),
                ("latencyMs", .vnum 120), ("resultCount", .vnum 7)] }

/-- `span.ended(A, success)`. -/
def c2SpanEnded : WorkflowEvent :=
  { event_id := "c2-4", ts := "4000", kind := "span.ended"
    payload := [("agentId", .vstr "A"), ("success", .vbool true)] }

/-- The state after admitting the four scenario envelopes in order. -/
def c2Final : AviationState :=
  addEvent 4000 c2SpanEnded
    (addEvent 3000 c2QueryComplete
      (addEvent 2000 c2QueryStart
        (addEvent 1000 c2Activated c2State0)))

/-- C2: starting from roster `[A(included), B(excluded)]`, the event sequence
`agent.activated(A)`, `data_source.query_start(A, SQL)`,
`data_source.query_complete(A, SQL, latencyMs = 120, resultCount = 7)`,
`span.ended(A, success)` produces a state in which agent A is `done` with one
evidence entry, the SQL source counts one query at average latency 120 ms,
and agent B stays `excluded`. -/
theorem scenario_roster_trace :
    ((alistGet c2Final.agents "A").map (fun a => a.status) = some AgentStatus.done) ∧
    ((alistGet c2Final.agents "A").map (fun a => a.evidence.length) = some 1) ∧
    ((alistGet c2Final.dataSources "SQL").map (fun d => d.queryCount) = some 1) ∧
    ((alistGet c2Final.dataSources "SQL").map (fun d => d.avgLatencyMs) = some 120) ∧
    ((alistGet c2Final.agents "B").map (fun a => a.status) = some AgentStatus.excluded) := by
  refine ⟨rfl, rfl, ?_, ?_, rfl⟩
  · with_unfolding_all rfl
  · with_unfolding_all rfl

-- ═══════════════════════════════════════════════════════════════════
-- Claim C9: the bounded event buffer
-- ═══════════════════════════════════════════════════════════════════

/-- The admitted event log after one `addEvent` is the last
`MAX_STORED_EVENTS` of the appended log. -/
theorem addEvent_events (n : Nat) (e : WorkflowEvent) (s : AviationState) :
    (addEvent n e s).events = jsSliceLast MAX_STORED_EVENTS (s.events ++ [e]) := by
  unfold addEvent
  rw [processAgentEvent_events, updateRun_events, addEventCore_events]

/-- C9: admitting an envelope never leaves more than `MAX_STORED_EVENTS`
(1500) stored events, and at capacity the oldest envelope (the list head) is
the one evicted. -/
theorem bounded_event_buffer (n : Nat) (e : WorkflowEvent) (s : AviationState) :
    (addEvent n e s).events.length ≤ MAX_STORED_EVENTS ∧
    (s.events.length = MAX_STORED_EVENTS →
      (addEvent n e s).events = s.events.tail ++ [e]) := by
  rw [addEvent_events]
  constructor
  · unfold jsSliceLast
    rw [List.length_drop]
    omega
  · intro hlen
    unfold jsSliceLast
    have h1 : (s.events ++ [e]).length - MAX_STORED_EVENTS = 1 := by
      simp [List.length_append, hlen]
    have h2 : (1 : Nat) ≤ s.events.length := by
      rw [hlen]; norm_num [MAX_STORED_EVENTS]
    rw [h1, List.drop_append_of_le_length h2, List.drop_one]

/-- A fixed filler envelope for the buffer-capacity witness. -/
def c9Filler : WorkflowEvent :=
  { event_id := "c9-old", ts := "500", kind := "note", payload := [] }

/-- A state already holding exactly `MAX_STORED_EVENTS` envelopes. -/
def c9FullState : AviationState :=
  { initialState with events := List.replicate MAX_STORED_EVENTS c9Filler }

/-- A fresh envelope admitted into the full buffer. -/
def c9NewEvent : WorkflowEvent :=
  { event_id := "c9-new", ts := "1000", kind := "note", payload := [] }

/-- C9 witness: at capacity 1500 the admitted log drops the head and appends
the new envelope. -/
theorem bounded_event_buffer_witness :
    (addEvent 1000 c9NewEvent c9FullState).events.length ≤ MAX_STORED_EVENTS ∧
    (addEvent 1000 c9NewEvent c9FullState).events =
      (List.replicate MAX_STORED_EVENTS c9Filler).tail ++ [c9NewEvent] := by
  have h := bounded_event_buffer 1000 c9NewEvent c9FullState
  exact ⟨h.1, h.2 (by simp [c9FullState])⟩


-- ═══════════════════════════════════════════════════════════════════
-- Kind-specific dispatch lemmas
-- ═══════════════════════════════════════════════════════════════════

/-- Dispatch: an `agent.activated` envelope runs `onAgentActivated`. -/
theorem processAgentEvent_agent_activated (n : Nat) (e : WorkflowEvent) (s : AviationState)
    (h : e.kind = EventKinds.AGENT_ACTIVATED) :
    processAgentEvent n e s = onAgentActivated n e s := by
  simp [processAgentEvent, h]

/-- Dispatch: a `span.started` envelope runs `onSpanStarted`. -/
theorem processAgentEvent_span_started (n : Nat) (e : WorkflowEvent) (s : AviationState)
    (h : e.kind = EventKinds.SPAN_STARTED) :
    processAgentEvent n e s = onSpanStarted n e s := by
  simp [processAgentEvent, h]

/-- Dispatch: a `span.ended` envelope runs `onSpanEnded`. -/
theorem processAgentEvent_span_ended (n : Nat) (e : WorkflowEvent) (s : AviationState)
    (h : e.kind = EventKinds.SPAN_ENDED) :
    processAgentEvent n e s = onSpanEnded n e s := by
  simp [processAgentEvent, h]

/-- Dispatch: an `executor.invoked` envelope runs `onExecutorInvoked`. -/
theorem processAgentEvent_executor_invoked (n : Nat) (e : WorkflowEvent) (s : AviationState)
    (h : e.kind = EventKinds.EXECUTOR_INVOKED) :
    processAgentEvent n e s = onExecutorInvoked n e s := by
  simp [processAgentEvent, h]

/-- Dispatch: an `executor.completed` envelope runs `onExecutorCompleted`. -/
theorem processAgentEvent_executor_completed (n : Nat) (e : WorkflowEvent) (s : AviationState)
    (h : e.kind = EventKinds.EXECUTOR_COMPLETED) :
    processAgentEvent n e s = onExecutorCompleted n e s := by
  simp [processAgentEvent, h]

/-- Dispatch: a `data_source.query_start` envelope runs `onQueryStart`. -/
theorem processAgentEvent_query_start (n : Nat) (e : WorkflowEvent) (s : AviationState)
    (h : e.kind = EventKinds.DATA_SOURCE_QUERY_START) :
    processAgentEvent n e s = onQueryStart n e s := by
  simp [processAgentEvent, h]

/-- Dispatch: a `data_source.query_complete` envelope runs `onQueryComplete`. -/
theorem processAgentEvent_query_complete (n : Nat) (e : WorkflowEvent) (s : AviationState)
    (h : e.kind = EventKinds.DATA_SOURCE_QUERY_COMPLETE) :
    processAgentEvent n e s = onQueryComplete n e s := by
  simp [processAgentEvent, h]

/-- Dispatch: a `progress_update` envelope runs `onProgressUpdate`. -/
theorem processAgentEvent_progress_update (n : Nat) (e : WorkflowEvent) (s : AviationState)
    (h : e.kind = EventKinds.PROGRESS_UPDATE) :
    processAgentEvent n e s = onProgressUpdate n e s := by
  simp [processAgentEvent, h]

-- ═══════════════════════════════════════════════════════════════════
-- Claim C6: heartbeats are intercepted by the connector
-- ═══════════════════════════════════════════════════════════════════

/-- C6: a heartbeat envelope never reaches the reducer: the SSE handler only
notes the heartbeat timestamp; the event log, the meaningful-event timestamp,
agents, data sources and recovery views are untouched, and the run progress
changes only in its `lastHeartbeatAt` field. -/
theorem heartbeat_intercepted_frame (n : Nat) (e : WorkflowEvent) (s : AviationState)
    (h : e.kind = EventKinds.HEARTBEAT) :
    (handleSSEEvent n e s).events = s.events ∧
    (handleSSEEvent n e s).lastMeaningfulEventAt = s.lastMeaningfulEventAt ∧
    (handleSSEEvent n e s).agents = s.agents ∧
    (handleSSEEvent n e s).dataSources = s.dataSources ∧
    (handleSSEEvent n e s).recoveryPlan = s.recoveryPlan ∧
    (handleSSEEvent n e s).recoveryOptions = s.recoveryOptions ∧
    (handleSSEEvent n e s).lastHeartbeatAt = some (jsOr e.ts (isoString n)) ∧
    (handleSSEEvent n e s).runProgress =
      { s.runProgress with lastHeartbeatAt := some (jsOr e.ts (isoString n)) } := by
  simp [handleSSEEvent, h, noteHeartbeat]

/-- A concrete heartbeat envelope. -/
def c6Heartbeat : WorkflowEvent :=
  { event_id := "c6-1", ts := "1000", kind := "heartbeat", payload := [] }

/-- C6 witness: the heartbeat above, received on the fresh store at wall
clock 5, only sets the heartbeat timestamp. -/
theorem heartbeat_intercepted_frame_witness :
    (handleSSEEvent 5 c6Heartbeat initialState).events = initialState.events ∧
    (handleSSEEvent 5 c6Heartbeat initialState).lastHeartbeatAt = some "1000" := by
  have h := heartbeat_intercepted_frame 5 c6Heartbeat initialState rfl
  exact ⟨h.1, by rw [h.2.2.2.2.2.2.1]; rfl⟩

-- ═══════════════════════════════════════════════════════════════════
-- Claim C3: unrecognized event kinds
-- ═══════════════════════════════════════════════════════════════════

/-- The last element survives the bounded slice of an append. -/
theorem mem_jsSliceLast_append {α : Type} (n : Nat) (hn : 0 < n) (l : List α) (x : α) :
    x ∈ jsSliceLast n (l ++ [x]) := by
  unfold jsSliceLast
  have hle : (l ++ [x]).length - n ≤ l.length := by
    simp only [List.length_append, List.length_singleton]
    omega
  rw [List.drop_append_of_le_length hle]
  exact List.mem_append_right _ (List.mem_singleton.mpr rfl)

/-- An envelope of unrecognized kind, admitted on the fresh store. -/
def c3Unknown : WorkflowEvent :=
  { event_id := "c3-1", ts := "1000", kind := "mystery_kind", payload := [] }

/-- C3 counterexample: admitting an unrecognized kind does change the run
progress view (its `lastEventKind` bookkeeping field), so the four derived
views are not all identical before and after. -/
theorem unknown_kind_mutates_run_progress :
    ("mystery_kind" ∉ recognizedKinds) ∧
    initialState.runProgress.lastEventKind = none ∧
    (addEvent 1000 c3Unknown initialState).runProgress.lastEventKind = some "mystery_kind" := by
  refine ⟨by decide, rfl, ?_⟩
  with_unfolding_all rfl

/-- C3 (amended): an admitted envelope of unrecognized kind is retained in
the raw event log; the agent registry, data sources, recovery views and edges
are unchanged, and the run progress keeps its status, agent counts and
staleness flag (only generic bookkeeping fields move). -/
theorem unknown_kind_frame (n : Nat) (e : WorkflowEvent) (s : AviationState)
    (h : e.kind ∉ recognizedKinds) :
    (addEvent n e s).events = jsSliceLast MAX_STORED_EVENTS (s.events ++ [e]) ∧
    e ∈ (addEvent n e s).events ∧
    (addEvent n e s).agents = s.agents ∧
    (addEvent n e s).dataSources = s.dataSources ∧
    (addEvent n e s).recoveryPlan = s.recoveryPlan ∧
    (addEvent n e s).recoveryOptions = s.recoveryOptions ∧
    (addEvent n e s).agentEdges = s.agentEdges ∧
    (addEvent n e s).runProgress.status = s.runProgress.status ∧
    (addEvent n e s).runProgress.agentsTotal = s.runProgress.agentsTotal ∧
    (addEvent n e s).runProgress.agentsActivated = s.runProgress.agentsActivated ∧
    (addEvent n e s).runProgress.agentsRunning = s.runProgress.agentsRunning ∧
    (addEvent n e s).runProgress.agentsDone = s.runProgress.agentsDone ∧
    (addEvent n e s).runProgress.agentsErrored = s.runProgress.agentsErrored ∧
    (addEvent n e s).runProgress.isStale = s.runProgress.isStale := by
  have hrc : e.kind ≠ EventKinds.RUN_COMPLETED := by
    intro hk
    exact h (by rw [hk]; decide)
  have hrf : e.kind ≠ EventKinds.RUN_FAILED := by
    intro hk
    exact h (by rw [hk]; decide)
  have hrs : e.kind ≠ EventKinds.RUN_STARTED := by
    intro hk
    exact h (by rw [hk]; decide)
  have hae : addEvent n e s = updateRunFromEvent e (addEventCore n e s) := by
    unfold addEvent
    rw [processAgentEvent_unrecognized n e _ h]
  have hcounts := addEventCore_counts n e s
  refine ⟨?_, ?_, ?_, ?_, ?_, ?_, ?_, ?_, ?_, ?_, ?_, ?_, ?_, ?_⟩
  · rw [hae, updateRun_events, addEventCore_events]
  · rw [hae, updateRun_events, addEventCore_events]
    exact mem_jsSliceLast_append MAX_STORED_EVENTS (by norm_num [MAX_STORED_EVENTS]) _ _
  · rw [hae, updateRun_agents, addEventCore_agents]
  · rw [hae, updateRun_dataSources, addEventCore_dataSources]
  · rw [hae, updateRun_recoveryPlan, addEventCore_recoveryPlan]
  · rw [hae, updateRun_recoveryOptions, addEventCore_recoveryOptions]
  · rw [hae, updateRun_agentEdges, addEventCore_agentEdges]
  · rw [hae, updateRun_runProgress, addEventCore_status n e s hrc hrf hrs]
  · rw [hae, updateRun_runProgress]
    exact hcounts.1
  · rw [hae, updateRun_runProgress]
    exact hcounts.2.1
  · rw [hae, updateRun_runProgress]
    exact hcounts.2.2.1
  · rw [hae, updateRun_runProgress]
    exact hcounts.2.2.2.1
  · rw [hae, updateRun_runProgress]
    exact hcounts.2.2.2.2
  · rw [hae, updateRun_runProgress, addEventCore_isStale]

/-- C3 witness: the concrete unrecognized envelope on the fresh store. -/
theorem unknown_kind_frame_witness :
    (addEvent 1000 c3Unknown initialState).agents = initialState.agents ∧
    c3Unknown ∈ (addEvent 1000 c3Unknown initialState).events ∧
    (addEvent 1000 c3Unknown initialState).runProgress.status =
      initialState.runProgress.status := by
  have h := unknown_kind_frame 1000 c3Unknown initialState (by decide)
  exact ⟨h.2.2.1, h.2.1, h.2.2.2.2.2.2.2.1⟩


-- ═══════════════════════════════════════════════════════════════════
-- Claim C4: lazy agent creation
-- ═══════════════════════════════════════════════════════════════════

/-- `onSpanStarted` drops the agent update when the referenced agent id is not in
the registry. -/
theorem onSpanStarted_unknown (n : Nat) (e : WorkflowEvent) (s : AviationState)
    (hnone : alistGet s.agents (resolvedAgentId e) = none) :
    (onSpanStarted n e s).agents = s.agents := by
  simp only [onSpanStarted, hnone] <;> (repeat' split) <;> rfl

/-- `onSpanEnded` drops the agent update when the referenced agent id is not in
the registry. -/
theorem onSpanEnded_unknown (n : Nat) (e : WorkflowEvent) (s : AviationState)
    (hnone : alistGet s.agents (resolvedAgentId e) = none) :
    (onSpanEnded n e s).agents = s.agents := by
  simp only [onSpanEnded, hnone] <;> (repeat' split) <;> rfl

/-- `onExecutorInvoked` drops the agent update when the referenced agent id is not in
the registry. -/
theorem onExecutorInvoked_unknown (n : Nat) (e : WorkflowEvent) (s : AviationState)
    (hnone : alistGet s.agents (resolvedAgentId e) = none) :
    (onExecutorInvoked n e s).agents = s.agents := by
  simp only [onExecutorInvoked, hnone] <;> (repeat' split) <;> rfl

/-- `onExecutorCompleted` drops the agent update when the referenced agent id is not in
the registry. -/
theorem onExecutorCompleted_unknown (n : Nat) (e : WorkflowEvent) (s : AviationState)
    (hnone : alistGet s.agents (resolvedAgentId e) = none) :
    (onExecutorCompleted n e s).agents = s.agents := by
  simp only [onExecutorCompleted, hnone] <;> (repeat' split) <;> rfl

/-- `onQueryStart` drops the agent update when the referenced agent id is not in
the registry. -/
theorem onQueryStart_unknown (n : Nat) (e : WorkflowEvent) (s : AviationState)
    (hnone : alistGet s.agents (resolvedAgentId e) = none) :
    (onQueryStart n e s).agents = s.agents := by
  simp only [onQueryStart, hnone] <;> (repeat' split) <;> rfl

/-- `onQueryComplete` drops the agent update when the referenced agent id is not in
the registry. -/
theorem onQueryComplete_unknown (n : Nat) (e : WorkflowEvent) (s : AviationState)
    (hnone : alistGet s.agents (resolvedAgentId e) = none) :
    (onQueryComplete n e s).agents = s.agents := by
  simp only [onQueryComplete, hnone] <;> (repeat' split) <;> rfl

/-- `onAgentActivated` lazily creates an unknown agent with the default
fields and immediately applies the activation. -/
theorem onAgentActivated_new_agent (n : Nat) (e : WorkflowEvent) (s : AviationState)
    (aid : String) (hid : resolvedAgentId e = aid) (hne : aid ≠ "")
    (hnone : alistGet s.agents aid = none) :
    ((alistGet (onAgentActivated n e s).agents aid).map (fun a => a.status) =
      some AgentStatus.activated) ∧
    ((alistGet (onAgentActivated n e s).agents aid).map (fun a => a.included) = some true) ∧
    ((alistGet (onAgentActivated n e s).agents aid).map (fun a => a.category) =
      some Category.specialist) ∧
    ((alistGet (onAgentActivated n e s).agents aid).map (fun a => a.traceCount) =
      some (some 1)) ∧
    ((alistGet (onAgentActivated n e s).agents aid).map (fun a => a.evidence) = some []) := by
  simp only [onAgentActivated, hid, if_neg hne, hnone, alistGet_set_self, incrementAgentTrace]
  norm_num

/-- The lifecycle kinds whose events are dropped (not lazily created) for an
unknown agent id. -/
def lazyDropKinds : List String :=
  ["span.started", "span.ended", "executor.invoked", "executor.completed",
   "data_source.query_start", "data_source.query_complete"]

/-- C4 (amended): only `agent.activated` lazily creates an unknown agent (with
default fields, immediately activated); the other lifecycle events — span
start/end, executor invoked/completed, query start/complete — leave the agent
registry unchanged when they reference an unknown agent id. -/
theorem lazy_creation_only_on_activation :
    (∀ (n : Nat) (e : WorkflowEvent) (s : AviationState) (aid : String),
      e.kind = EventKinds.AGENT_ACTIVATED → resolvedAgentId e = aid → aid ≠ "" →
      alistGet s.agents aid = none →
      ((alistGet (addEvent n e s).agents aid).map (fun a => a.status) =
        some AgentStatus.activated) ∧
      ((alistGet (addEvent n e s).agents aid).map (fun a => a.included) = some true) ∧
      ((alistGet (addEvent n e s).agents aid).map (fun a => a.traceCount) = some (some 1))) ∧
    (∀ (n : Nat) (e : WorkflowEvent) (s : AviationState),
      e.kind ∈ lazyDropKinds →
      alistGet s.agents (resolvedAgentId e) = none →
      (addEvent n e s).agents = s.agents) := by
  constructor
  · intro n e s aid hk hid hne hnone
    unfold addEvent
    rw [processAgentEvent_agent_activated _ _ _ hk]
    have hAg : (updateRunFromEvent e (addEventCore n e s)).agents = s.agents := by
      rw [updateRun_agents, addEventCore_agents]
    have hnone2 : alistGet (updateRunFromEvent e (addEventCore n e s)).agents aid = none := by
      rw [hAg]; exact hnone
    have h := onAgentActivated_new_agent n e (updateRunFromEvent e (addEventCore n e s))
      aid hid hne hnone2
    exact ⟨h.1, h.2.1, h.2.2.2.1⟩
  · intro n e s hmem hnone
    unfold addEvent
    have hAg : (updateRunFromEvent e (addEventCore n e s)).agents = s.agents := by
      rw [updateRun_agents, addEventCore_agents]
    have hnone2 : alistGet (updateRunFromEvent e (addEventCore n e s)).agents
        (resolvedAgentId e) = none := by
      rw [hAg]; exact hnone
    simp only [lazyDropKinds, List.mem_cons, List.not_mem_nil, or_false] at hmem
    rcases hmem with h | h | h | h | h | h
    · rw [processAgentEvent_span_started _ _ _ h, onSpanStarted_unknown _ _ _ hnone2, hAg]
    · rw [processAgentEvent_span_ended _ _ _ h, onSpanEnded_unknown _ _ _ hnone2, hAg]
    · rw [processAgentEvent_executor_invoked _ _ _ h, onExecutorInvoked_unknown _ _ _ hnone2, hAg]
    · rw [processAgentEvent_executor_completed _ _ _ h,
        onExecutorCompleted_unknown _ _ _ hnone2, hAg]
    · rw [processAgentEvent_query_start _ _ _ h, onQueryStart_unknown _ _ _ hnone2, hAg]
    · rw [processAgentEvent_query_complete _ _ _ h, onQueryComplete_unknown _ _ _ hnone2, hAg]

/-- A `span.started` envelope referencing an agent id absent from the
registry. -/
def c4Span : WorkflowEvent :=
  { event_id := "c4-1", ts := "1000", kind := "span.started"
    payload := [("agentId", .vstr "ghost")] }

/-- C4 counterexample: the claim says every lifecycle event lazily creates an
unknown agent, but a `span.started` for the unknown id `ghost` leaves the
registry without it (the event's agent update is dropped). -/
theorem span_started_unknown_agent_dropped :
    resolvedAgentId c4Span = "ghost" ∧
    (alistGet initialState.agents "ghost").isNone = true ∧
    (alistGet (addEvent 1000 c4Span initialState).agents "ghost").isNone = true := by
  refine ⟨rfl, rfl, ?_⟩
  with_unfolding_all rfl

/-- An `agent.activated` envelope for the unknown id `ghost`. -/
def c4Activated : WorkflowEvent :=
  { event_id := "c4-2", ts := "1000", kind := "agent.activated"
    payload := [("agentId", .vstr "ghost")] }

/-- C4 witness: activation lazily creates `ghost` on the fresh store, and the
concrete `span.started` for `ghost` leaves the registry unchanged. -/
theorem lazy_creation_only_on_activation_witness :
    ((alistGet (addEvent 1000 c4Activated initialState).agents "ghost").map
      (fun a => a.status) = some AgentStatus.activated) ∧
    (addEvent 1000 c4Span initialState).agents = initialState.agents := by
  constructor
  · exact (lazy_creation_only_on_activation.1 1000 c4Activated initialState "ghost"
      rfl rfl (by decide) rfl).1
  · exact lazy_creation_only_on_activation.2 1000 c4Span initialState (by decide) rfl


-- ═══════════════════════════════════════════════════════════════════
-- Claim C7: query-complete statistics
-- ═══════════════════════════════════════════════════════════════════

/-- The `DATA_SOURCE_QUERY_COMPLETE` update of a known source, in closed
form. -/
theorem onQueryComplete_known_source (n : Nat) (e : WorkflowEvent) (s : AviationState)
    (st : String) (ds : DataSourceActivity) (L R : ℚ)
    (hst : alistGet e.payload "sourceType" = some (.vstr st))
    (hL : alistGet e.payload "latencyMs" = some (.vnum L))
    (hR : alistGet e.payload "resultCount" = some (.vnum R))
    (hds : alistGet s.dataSources st = some ds) :
    alistGet (onQueryComplete n e s).dataSources st =
      some { ds with
             queryCount := ds.queryCount + 1
             totalResults := ds.totalResults + R
             avgLatencyMs :=
               ((jsRound ((ds.avgLatencyMs * ds.queryCount + L) / (ds.queryCount + 1))) : ℚ)
             isActive := false
             lastQueryTime := some e.ts
             lastQuerySummary := some (payloadStringD e.payload "querySummary" (st ++ " query"))
             lastAgentId :=
               if resolvedAgentId e = "" then ds.lastAgentId else some (resolvedAgentId e)
             provider := providerFrom (payloadString e.payload "sourceProvider") ds.provider
             sparkline := jsSliceLast 19 ds.sparkline ++ [L] } := by
  simp only [onQueryComplete, payloadString, payloadStringD, payloadNumber, payloadNumberD,
    hst, hL, hR, hds, alistGet_set_self]

/-- C7 (amended): for a `data_source.query_complete` on a known source with
latency `L` and result count `R`, the stored average becomes the running
average rounded to the nearest integer — `Math.round((avg*count + L) /
(count+1))` — the query count increments, `L` is appended to the sparkline
after keeping only its last 19 entries (so the sparkline stays within bound
20), and `isActive` clears. -/
theorem query_complete_stats (n : Nat) (e : WorkflowEvent) (s : AviationState)
    (st : String) (ds : DataSourceActivity) (L R : ℚ)
    (hk : e.kind = EventKinds.DATA_SOURCE_QUERY_COMPLETE)
    (hst : alistGet e.payload "sourceType" = some (.vstr st))
    (hL : alistGet e.payload "latencyMs" = some (.vnum L))
    (hR : alistGet e.payload "resultCount" = some (.vnum R))
    (hds : alistGet s.dataSources st = some ds) :
    ((alistGet (addEvent n e s).dataSources st).map (fun d => d.queryCount) =
      some (ds.queryCount + 1)) ∧
    ((alistGet (addEvent n e s).dataSources st).map (fun d => d.avgLatencyMs) =
      some ((jsRound ((ds.avgLatencyMs * ds.queryCount + L) / (ds.queryCount + 1))) : ℚ)) ∧
    ((alistGet (addEvent n e s).dataSources st).map (fun d => d.totalResults) =
      some (ds.totalResults + R)) ∧
    ((alistGet (addEvent n e s).dataSources st).map (fun d => d.sparkline) =
      some (jsSliceLast 19 ds.sparkline ++ [L])) ∧
    ((alistGet (addEvent n e s).dataSources st).map (fun d => d.isActive) = some false) ∧
    (jsSliceLast 19 ds.sparkline ++ [L]).length ≤ 20 := by
  unfold addEvent
  rw [processAgentEvent_query_complete _ _ _ hk]
  have hds2 : alistGet (updateRunFromEvent e (addEventCore n e s)).dataSources st = some ds := by
    rw [updateRun_dataSources, addEventCore_dataSources]
    exact hds
  have key := onQueryComplete_known_source n e (updateRunFromEvent e (addEventCore n e s))
    st ds L R hst hL hR hds2
  rw [key]
  refine ⟨rfl, rfl, rfl, rfl, rfl, ?_⟩
  unfold jsSliceLast
  simp only [List.length_append, List.length_drop, List.length_singleton]
  omega

/-- A state whose SQL source already counts one query at average latency 0. -/
def c7SQL : DataSourceActivity :=
  { mkDefaultSource "SQL" "Azure PostgreSQL" "SQL" .azure "Azure Data" with queryCount := 1 }

/-- The store with the SQL source in the state above. -/
def c7State : AviationState :=
  { initialState with dataSources := alistSet initialState.dataSources "SQL" c7SQL }

/-- A `query_complete` on SQL with latency 1 ms and no results. -/
def c7Event : WorkflowEvent :=
  { event_id := "c7-1", ts := "1000", kind := "data_source.query_complete"
    payload := [("sourceType", .vstr "SQL"), ("latencyMs", .vnum 1), ("resultCount", .vnum 0)] }

/-- C7 counterexample: with `avgLatencyMs = 0`, `queryCount = 1` and a new
latency of 1 ms, the claim's formula gives 1/2, but the stored average is the
rounded value 1 — the claim omits the `Math.round`. -/
theorem avg_latency_rounding_counterexample :
    ((alistGet (addEvent 0 c7Event c7State).dataSources "SQL").map (fun d => d.avgLatencyMs) =
      some 1) ∧
    ((0 * 1 + 1) / (1 + 1) : ℚ) = 1 / 2 ∧
    (1 : ℚ) ≠ 1 / 2 := by
  refine ⟨?_, by norm_num, by norm_num⟩
  with_unfolding_all rfl

/-- C7 witness: the amended statement evaluated on the concrete SQL state. -/
theorem query_complete_stats_witness :
    ((alistGet (addEvent 0 c7Event c7State).dataSources "SQL").map (fun d => d.queryCount) =
      some 2) ∧
    ((alistGet (addEvent 0 c7Event c7State).dataSources "SQL").map (fun d => d.isActive) =
      some false) := by
  have hds : alistGet c7State.dataSources "SQL" = some c7SQL := by
    with_unfolding_all rfl
  have h := query_complete_stats 0 c7Event c7State "SQL" c7SQL 1 0 rfl rfl rfl rfl hds
  refine ⟨?_, h.2.2.2.2.1⟩
  rw [h.1]
  norm_num [c7SQL, mkDefaultSource]

-- ═══════════════════════════════════════════════════════════════════
-- Claim C8: duplicate span.ended events
-- ═══════════════════════════════════════════════════════════════════

/-- The successful `SPAN_ENDED` update of a known agent, in closed form. -/
theorem onSpanEnded_done (n : Nat) (e : WorkflowEvent) (s : AviationState)
    (aid : String) (a : AgentNode)
    (hid : resolvedAgentId e = aid) (hne : aid ≠ "")
    (hsucc : jsSuccess e.payload = true)
    (hagent : alistGet s.agents aid = some a) :
    alistGet (onSpanEnded n e s).agents aid =
      some { incrementAgentTrace a e.ts with
             status := AgentStatus.done
             currentObjective := none
             activeQuerySummary := none
             spanStartedAt := none
             endedAt := some e.ts
             durationMs := payloadNumberOpt e.payload "durationMs" a.durationMs
             completionReason := some (payloadStringD e.payload "completionReason" "completed")
             lastAction := some "completed"
             percentComplete := some 100 } := by
  simp only [onSpanEnded, hid, if_neg hne, hagent, hsucc, alistGet_set_self, if_true]

/-- C8: re-applying a successful `span.ended` to an agent already `done`
keeps the status `done` and `percentComplete` at 100 while adding one to
`traceCount` per application: the duplicate never corrupts the status. -/
theorem duplicate_span_ended_tolerated (n1 n2 : Nat) (e : WorkflowEvent) (s : AviationState)
    (aid : String) (a : AgentNode)
    (hk : e.kind = EventKinds.SPAN_ENDED)
    (hid : resolvedAgentId e = aid) (hne : aid ≠ "")
    (hsucc : jsSuccess e.payload = true)
    (hagent : alistGet s.agents aid = some a)
    (hdone : a.status = AgentStatus.done) :
    ((alistGet (addEvent n1 e s).agents aid).map (fun x => x.status) =
      some AgentStatus.done) ∧
    ((alistGet (addEvent n1 e s).agents aid).map (fun x => x.percentComplete) =
      some (some 100)) ∧
    ((alistGet (addEvent n1 e s).agents aid).map (fun x => x.traceCount) =
      some (some (a.traceCount.getD 0 + 1))) ∧
    ((alistGet (addEvent n2 e (addEvent n1 e s)).agents aid).map (fun x => x.status) =
      some AgentStatus.done) ∧
    ((alistGet (addEvent n2 e (addEvent n1 e s)).agents aid).map (fun x => x.traceCount) =
      some (some (a.traceCount.getD 0 + 2))) := by
  have step : ∀ (n : Nat) (s' : AviationState) (a' : AgentNode),
      alistGet s'.agents aid = some a' →
      alistGet (addEvent n e s').agents aid =
        some { incrementAgentTrace a' e.ts with
               status := AgentStatus.done
               currentObjective := none
               activeQuerySummary := none
               spanStartedAt := none
               endedAt := some e.ts
               durationMs := payloadNumberOpt e.payload "durationMs" a'.durationMs
               completionReason := some (payloadStringD e.payload "completionReason" "completed")
               lastAction := some "completed"
               percentComplete := some 100 } := by
    intro n s' a' ha'
    unfold addEvent
    rw [processAgentEvent_span_ended _ _ _ hk]
    refine onSpanEnded_done n e _ aid a' hid hne hsucc ?_
    rw [updateRun_agents, addEventCore_agents]
    exact ha'
  have k1 := step n1 s a hagent
  have k2 := step n2 (addEvent n1 e s) _ k1
  refine ⟨?_, ?_, ?_, ?_, ?_⟩
  · rw [k1]; rfl
  · rw [k1]; rfl
  · rw [k1]
    simp [incrementAgentTrace]
  · rw [k2]; rfl
  · rw [k2]
    simp [incrementAgentTrace]
    ring

/-- A registry holding one agent already `done`. -/
def c8Agent : AgentNode :=
  { id := "A", name := "Agent A", icon := "plane", color := "#123456"
    status := .done, dataSources := [], included := true, reason := "r"
    category := .specialist, evidence := [], toolCalls := []
    traceCount := some 5, percentComplete := some 100 }

/-- The store holding only that agent. -/
def c8State : AviationState :=
  { initialState with agents := [("A", c8Agent)] }

/-- A successful `span.ended` for that agent. -/
def c8Event : WorkflowEvent :=
  { event_id := "c8-1", ts := "1000", kind := "span.ended"
    payload := [("agentId", .vstr "A"), ("success", .vbool true)] }

/-- C8 witness: applying the duplicate `span.ended` twice on the concrete
store keeps A `done` and counts the trace twice. -/
theorem duplicate_span_ended_tolerated_witness :
    ((alistGet (addEvent 1 c8Event c8State).agents "A").map (fun x => x.status) =
      some AgentStatus.done) ∧
    ((alistGet (addEvent 2 c8Event (addEvent 1 c8Event c8State)).agents "A").map
      (fun x => x.traceCount) = some (some 7)) := by
  have h := duplicate_span_ended_tolerated 1 2 c8Event c8State "A" c8Agent
    rfl rfl (by decide) rfl rfl rfl
  refine ⟨h.1, ?_⟩
  rw [h.2.2.2.2]
  norm_num [c8Agent]


-- ═══════════════════════════════════════════════════════════════════
-- Claim C1: monotonic progress
-- ═══════════════════════════════════════════════════════════════════

/-- With a numeric `runProgressPct` in the payload, `payloadNumber` returns
it. -/
theorem payloadNumberD_reported (p : Payload) (k : String) (f q : ℚ)
    (hq : alistGet p k = some (.vnum q)) : payloadNumberD p k f = q := by
  unfold payloadNumberD
  rw [hq]

/-- A reported non-negative value replaces the current one. -/
theorem mergedPct_reported (q x : ℚ) (hq : 0 ≤ q) : mergedPct q x = q := by
  simp [mergedPct, ge_iff_le, hq]

/-- `onProgressUpdate` stores exactly the reported non-negative
`runProgressPct`, even when it is lower than the current value. -/
theorem onProgressUpdate_reported (n : Nat) (e : WorkflowEvent) (s : AviationState) (q : ℚ)
    (hq : alistGet e.payload "runProgressPct" = some (.vnum q)) (hq0 : 0 ≤ q) :
    (onProgressUpdate n e s).runProgress.overallPct = q := by
  simp only [onProgressUpdate, payloadNumberD_reported _ _ _ _ hq, mergedPct_reported _ _ hq0]

/-- One full admission keeps `overallPct` inside its monotone envelope when
the payload reports no numeric `runProgressPct`. -/
theorem addEvent_pct_mono (n : Nat) (e : WorkflowEvent) (s : AviationState)
    (h : ¬ carriesRunPct e.payload) (h100 : s.runProgress.overallPct ≤ 100) :
    s.runProgress.overallPct ≤ (addEvent n e s).runProgress.overallPct ∧
    (addEvent n e s).runProgress.overallPct ≤ 100 := by
  unfold addEvent
  have hcore : (addEventCore n e s).runProgress.overallPct = s.runProgress.overallPct := by
    rw [addEventCore_overallPct, payloadNumberD_runpct _ _ h, max_self]
  have hup : (updateRunFromEvent e (addEventCore n e s)).runProgress =
      (addEventCore n e s).runProgress := updateRun_runProgress _ _
  have h2 := processAgentEvent_pct n e (updateRunFromEvent e (addEventCore n e s)) h
    (by rw [hup, hcore]; exact h100)
  rw [hup, hcore] at h2
  exact h2

/-- A sequence of timed admissions (`Date.now()` instant paired with the
envelope). -/
def applyEvents : List (Nat × WorkflowEvent) → AviationState → AviationState
  | [], s => s
  | (n, e) :: rest, s => applyEvents rest (addEvent n e s)

/-- C1 (amended): across any sequence of admitted envelopes whose payloads
carry no numeric `runProgressPct`, the observed `overallPct` is non-decreasing
(and stays at most 100) from any state with `overallPct ≤ 100`; but an
envelope of a recognized kind that does carry a non-negative `runProgressPct`
(here `progress_update`) replaces `overallPct` with exactly the reported
value, even when it is lower — the monotonic floor holds only inside
`addEvent`'s generic merge, and the kind-specific processing overwrites it. -/
theorem progress_monotone_without_reported_pct :
    (∀ (steps : List (Nat × WorkflowEvent)) (s : AviationState),
      (∀ p ∈ steps, ¬ carriesRunPct p.2.payload) →
      s.runProgress.overallPct ≤ 100 →
      s.runProgress.overallPct ≤ (applyEvents steps s).runProgress.overallPct ∧
      (applyEvents steps s).runProgress.overallPct ≤ 100) ∧
    (∀ (n : Nat) (e : WorkflowEvent) (s : AviationState) (q : ℚ),
      e.kind = EventKinds.PROGRESS_UPDATE →
      alistGet e.payload "runProgressPct" = some (.vnum q) → 0 ≤ q →
      (addEvent n e s).runProgress.overallPct = q) := by
  constructor
  · intro steps
    induction steps with
    | nil =>
        intro s _ h100
        exact ⟨le_refl _, h100⟩
    | cons hd tl ih =>
        intro s hall h100
        have hhd : ¬ carriesRunPct hd.2.payload := hall hd (List.mem_cons_self hd tl)
        have hstep := addEvent_pct_mono hd.1 hd.2 s hhd h100
        have htl := ih (addEvent hd.1 hd.2 s)
          (fun p hp => hall p (List.mem_cons_of_mem hd hp)) hstep.2
        obtain ⟨n, e⟩ := hd
        exact ⟨le_trans hstep.1 htl.1, htl.2⟩
  · intro n e s q hk hq hq0
    unfold addEvent
    rw [processAgentEvent_progress_update _ _ _ hk]
    exact onProgressUpdate_reported _ _ _ _ hq hq0

/-- A `progress_update` reporting 50 percent. -/
def c1First : WorkflowEvent :=
  { event_id := "c1-1", ts := "1000", kind := "progress_update"
    payload := [("runProgressPct", .vnum 50)] }

/-- A later `progress_update` reporting only 30 percent. -/
def c1Second : WorkflowEvent :=
  { event_id := "c1-2", ts := "2000", kind := "progress_update"
    payload := [("runProgressPct", .vnum 30)] }

/-- C1 counterexample: after a reported 50, a reported 30 replaces the stored
value — `overallPct` decreases from 50 to 30, so it is not non-decreasing for
envelopes carrying `runProgressPct`. -/
theorem progress_pct_can_decrease :
    ((addEvent 1000 c1First initialState).runProgress.overallPct = 50) ∧
    ((addEvent 2000 c1Second (addEvent 1000 c1First initialState)).runProgress.overallPct = 30) ∧
    ((30 : ℚ) < 50) := by
  refine ⟨?_, ?_, by norm_num⟩
  · with_unfolding_all rfl
  · with_unfolding_all rfl

/-- An envelope carrying no `runProgressPct` at all. -/
def c1NoPct : WorkflowEvent :=
  { event_id := "c1-3", ts := "1000", kind := "run_started", payload := [] }

/-- C1 witness: the monotone part applied to a singleton sequence on the
fresh store, and the replacement part applied to the concrete reported 50. -/
theorem progress_monotone_witness :
    (initialState.runProgress.overallPct ≤
      (applyEvents [(1000, c1NoPct)] initialState).runProgress.overallPct) ∧
    ((addEvent 1000 c1First initialState).runProgress.overallPct = 50) := by
  constructor
  · refine (progress_monotone_without_reported_pct.1 [(1000, c1NoPct)] initialState ?_ ?_).1
    · intro p hp
      simp only [List.mem_singleton] at hp
      subst hp
      rintro ⟨q, hq⟩
      simp [c1NoPct, alistGet] at hq
    · exact (by norm_num : (0 : ℚ) ≤ 100)
  · exact progress_monotone_without_reported_pct.2 1000 c1First initialState 50 rfl rfl
      (by norm_num)

-- ═══════════════════════════════════════════════════════════════════
-- Claim C5: the staleness threshold
-- ═══════════════════════════════════════════════════════════════════

/-- The meaningful-event timestamp after a full admission of a non-heartbeat
envelope with a truthy `ts`. -/
theorem addEvent_lastMeaningful (n : Nat) (e : WorkflowEvent) (s : AviationState)
    (hmean : isMeaningfulEvent e.kind = true) (hts : e.ts ≠ "") :
    (addEvent n e s).lastMeaningfulEventAt = some e.ts := by
  unfold addEvent
  rw [processAgentEvent_lastMeaningful, updateRun_lastMeaningful, addEventCore_lastMeaningful,
    if_pos hmean, if_neg hts]

/-- C5: with a recorded meaningful-event time `m > 0`, a staleness poll at
`now` sets `isStale` exactly to `connected AND (now - m > 20000 ms)`; and
after a meaningful envelope is admitted, the next poll within the 20-second
threshold clears `isStale`. -/
theorem staleness_threshold :
    (∀ (s : AviationState) (now : Nat) (t : String) (m : ℚ),
      s.lastMeaningfulEventAt = some t → dateParse t = some m → 0 < m →
      (evaluateStaleness now s).runProgress.isStale =
        (s.isConnected && decide (20000 < (now : ℚ) - m))) ∧
    (∀ (nowE now : Nat) (e : WorkflowEvent) (s : AviationState) (m : ℚ),
      isMeaningfulEvent e.kind = true → e.ts ≠ "" → dateParse e.ts = some m →
      (now : ℚ) - m ≤ 20000 →
      (evaluateStaleness now (addEvent nowE e s)).runProgress.isStale = false) := by
  constructor
  · intro s now t m ht hm h0
    simp only [evaluateStaleness, ht, hm, decide_eq_true h0, Bool.true_and, gt_iff_lt]
  · intro nowE now e s m hmean hts hm hle
    have hlast := addEvent_lastMeaningful nowE e s hmean hts
    simp only [evaluateStaleness, hlast, hm, gt_iff_lt]
    have : decide (20000 < (now : ℚ) - m) = false := by
      simp only [decide_eq_false_iff_not, not_lt]
      exact hle
    rw [this]
    simp

/-- A connected store whose last meaningful event was at epoch 1000 ms. -/
def c5State : AviationState :=
  { initialState with lastMeaningfulEventAt := some "1000", isConnected := true }

/-- A meaningful (non-heartbeat) envelope at epoch 25000 ms. -/
def c5Meaningful : WorkflowEvent :=
  { event_id := "c5-1", ts := "25000", kind := "agent.objective", payload := [] }

/-- C5 witness: a poll 29 seconds after the last meaningful event flags the
connected store stale; admitting a meaningful envelope and polling within the
threshold clears the flag. -/
theorem staleness_threshold_witness :
    ((evaluateStaleness 30000 c5State).runProgress.isStale = true) ∧
    ((evaluateStaleness 30000 (addEvent 25000 c5Meaningful c5State)).runProgress.isStale =
      false) := by
  constructor
  · have h := staleness_threshold.1 c5State 30000 "1000" 1000 rfl
      (by with_unfolding_all rfl) (by norm_num)
    rw [h]
    show (true && decide (20000 < (30000 : ℚ) - 1000)) = true
    norm_num
  · exact staleness_threshold.2 25000 30000 c5Meaningful c5State 25000 rfl (by decide)
      (by with_unfolding_all rfl) (by norm_num)

-- ═══════════════════════════════════════════════════════════════════
-- Claim C10: isStale implies isConnected
-- ═══════════════════════════════════════════════════════════════════

/-- One user-visible store action. -/
inductive Action where
  | setCurrentRunId (runId : Option String)
  | setCurrentRun (run : Option RunMetadata)
  | addEvent (nowMs : Nat) (e : WorkflowEvent)
  | clearEvents
  | setConnected (connected : Bool)
  | noteHeartbeat (nowMs : Nat) (ts : Option String)
  | evaluateStaleness (nowMs : Nat)
  | initializeAgents (agentInfos : List AgentInfo) (scenarioName : String)
  | setSelectedAgent (agentId : Option String)
  | setSidebarCollapsed (collapsed : Bool)
  | setBottomDrawerTab (tab : DrawerTab)
  | setBottomDrawerOpen (openFlag : Bool)

/-- Apply one action to the store. -/
def stepAction (s : AviationState) : Action → AviationState
  | .setCurrentRunId r => setCurrentRunId r s
  | .setCurrentRun r => setCurrentRun r s
  | .addEvent n e => addEvent n e s
  | .clearEvents => clearEvents s
  | .setConnected b => setConnected b s
  | .noteHeartbeat n ts => noteHeartbeat n ts s
  | .evaluateStaleness n => evaluateStaleness n s
  | .initializeAgents infos scen => initializeAgents infos scen s
  | .setSelectedAgent a => setSelectedAgent a s
  | .setSidebarCollapsed b => setSidebarCollapsed b s
  | .setBottomDrawerTab t => setBottomDrawerTab t s
  | .setBottomDrawerOpen b => setBottomDrawerOpen b s

/-- The store state after a sequence of actions from the initial state. -/
def runActions (acts : List Action) : AviationState :=
  acts.foldl stepAction initialState

/-- The C10 invariant: a stale store is a connected store. -/
def staleInv (s : AviationState) : Prop :=
  s.runProgress.isStale = true → s.isConnected = true

/-- A full admission never touches the connection flag. -/
theorem addEvent_isConnected (n : Nat) (e : WorkflowEvent) (s : AviationState) :
    (addEvent n e s).isConnected = s.isConnected := by
  unfold addEvent
  rw [processAgentEvent_isConnected, updateRun_isConnected, addEventCore_isConnected]

/-- A full admission keeps or clears the staleness flag, never sets it. -/
theorem addEvent_isStale (n : Nat) (e : WorkflowEvent) (s : AviationState) :
    (addEvent n e s).runProgress.isStale = s.runProgress.isStale ∨
    (addEvent n e s).runProgress.isStale = false := by
  unfold addEvent
  rcases processAgentEvent_isStale n e (updateRunFromEvent e (addEventCore n e s)) with h | h
  · left
    rw [h, updateRun_runProgress, addEventCore_isStale]
  · right
    exact h

/-- Every store action preserves the C10 invariant. -/
theorem stepAction_preserves (s : AviationState) (a : Action) (hinv : staleInv s) :
    staleInv (stepAction s a) := by
  cases a with
  | setCurrentRunId r =>
      intro hst
      cases r with
      | none => simp [stepAction, setCurrentRunId, createDefaultRunProgress] at hst
      | some rid => exact hinv hst
  | setCurrentRun r => exact fun hst => hinv hst
  | addEvent n e =>
      intro hst
      have hst' : (addEvent n e s).runProgress.isStale = true := hst
      rw [show (stepAction s (Action.addEvent n e)).isConnected = (addEvent n e s).isConnected
        from rfl, addEvent_isConnected]
      rcases addEvent_isStale n e s with h | h
      · rw [h] at hst'
        exact hinv hst'
      · rw [h] at hst'
        exact absurd hst' (by simp)
  | clearEvents =>
      intro hst
      simp [stepAction, clearEvents, createDefaultRunProgress] at hst
  | setConnected b =>
      intro hst
      cases b with
      | true => rfl
      | false => simp [stepAction, setConnected] at hst
  | noteHeartbeat n ts => exact fun hst => hinv hst
  | evaluateStaleness n =>
      intro hst
      have hst' : (Aviation.evaluateStaleness n s).runProgress.isStale = true := hst
      simp only [evaluateStaleness, Bool.and_eq_true] at hst'
      exact hst'.1
  | initializeAgents infos scen => exact fun hst => hinv hst
  | setSelectedAgent a => exact fun hst => hinv hst
  | setSidebarCollapsed b => exact fun hst => hinv hst
  | setBottomDrawerTab t => exact fun hst => hinv hst
  | setBottomDrawerOpen b => exact fun hst => hinv hst

/-- The invariant holds in every reachable state. -/
theorem runActions_staleInv (acts : List Action) : staleInv (runActions acts) := by
  have key : ∀ (l : List Action) (s : AviationState),
      staleInv s → staleInv (List.foldl stepAction s l) := by
    intro l
    induction l with
    | nil => exact fun s h => h
    | cons a rest ih => exact fun s h => ih _ (stepAction_preserves s a h)
  exact key acts initialState (fun h => by
    simp [initialState, createDefaultRunProgress] at h)

/-- C10: in every state reachable by store actions from the initial state,
`isStale = true` implies `isConnected = true`: disconnecting, terminal run
events and clearing events all force `isStale` off, and no action sets
`isStale` while disconnected. -/
theorem stale_implies_connected (acts : List Action)
    (h : (runActions acts).runProgress.isStale = true) :
    (runActions acts).isConnected = true :=
  runActions_staleInv acts h

/-- A meaningful envelope for the C10 witness. -/
def c10Event : WorkflowEvent :=
  { event_id := "c10-1", ts := "1000", kind := "telemetry_blob", payload := [] }

/-- Connect, admit a meaningful envelope at epoch 1000 ms, poll at epoch
30000 ms: the store is genuinely stale. -/
def c10Acts : List Action :=
  [.setConnected true, .addEvent 1000 c10Event, .evaluateStaleness 30000]

/-- C10 witness: the concrete reachable stale state is connected. -/
theorem stale_implies_connected_witness :
    (runActions c10Acts).runProgress.isStale = true ∧
    (runActions c10Acts).isConnected = true := by
  have h1 : (runActions c10Acts).runProgress.isStale = true := by
    with_unfolding_all rfl
  exact ⟨h1, stale_implies_connected c10Acts h1⟩

end Aviation
